import Mathlib

/-!
Verification development for the SD-WAN monitoring server
(`src/main.py`, class `SDWANMCPServer`).

The Python program is shallowly embedded:
- JSON values (Python dicts/lists/scalars as they appear on the wire and in
  results) become the inductive type `Json`;
- Python floats are modelled as exact rationals `ℚ`;
- code that can raise is modelled in `Except String`, the error string
  standing for the exception text;
- the HTTP world (responses to the login POST and to the data GETs) is an
  explicit oracle passed to the embedded functions, so that one call of
  `_make_request` consumes the oracle positionally exactly as the source
  issues its requests.

Definition names follow the Python methods (`_make_request` becomes
`make_request`, and so on).
-/

namespace SDWAN

/-- JSON-ish Python values: None, bool, int, float (as an exact rational),
str, list, dict (association list with string keys, insertion ordered). -/
inductive Json where
  | null : Json
  | bool (b : Bool) : Json
  | int (n : ℤ) : Json
  | rat (q : ℚ) : Json
  | str (s : String) : Json
  | arr (xs : List Json) : Json
  | obj (kvs : List (String × Json)) : Json

/-- First-match lookup in a dict, with a default (Python `dict.get(k, d)`). -/
def lookupD (kvs : List (String × Json)) (k : String) (d : Json) : Json :=
  match kvs.find? (fun p => p.1 == k) with
  | some p => p.2
  | none => d

/-- Key-membership test in a dict (Python `k in d`). -/
def hasKey (kvs : List (String × Json)) (k : String) : Bool :=
  kvs.any (fun p => p.1 == k)

/-- Python `v.get(k, d)`: succeeds on dicts, raises AttributeError otherwise. -/
def pyGet (j : Json) (k : String) (d : Json) : Except String Json :=
  match j with
  | .obj kvs => .ok (lookupD kvs k d)
  | _ => .error "AttributeError: object has no attribute get"

/-- Total variant of `pyGet` (used in theorem statements; agrees with `pyGet`
on dicts, returns the default on everything else). -/
def dgetD (j : Json) (k : String) (d : Json) : Json :=
  match j with
  | .obj kvs => lookupD kvs k d
  | _ => d

/-- Value test used for Python `j == "s"` where `s` is a string literal:
true exactly when `j` is that string. -/
def jsonEqStr (j : Json) (s : String) : Bool :=
  match j with
  | .str t => t == s
  | _ => false

/-- Python truthiness of a JSON value. -/
def jsonTruthy : Json → Bool
  | .null => false
  | .bool b => b
  | .int n => n != 0
  | .rat q => q != 0
  | .str s => !s.isEmpty
  | .arr xs => !xs.isEmpty
  | .obj kvs => !kvs.isEmpty

/-- Python truthiness of an optional string (`if not self.session_id`). -/
def optTruthy : Option String → Bool
  | none => false
  | some s => !s.isEmpty

/-- Python `int(x)` coercion: ints pass through, bools map to 0/1, floats
truncate toward zero, strings parse or raise ValueError, everything else
raises TypeError. -/
def pyInt : Json → Except String ℤ
  | .int n => .ok n
  | .bool b => .ok (if b then 1 else 0)
  | .rat q => .ok (if 0 ≤ q then ⌊q⌋ else -⌊-q⌋)
  | .str s =>
      match s.toInt? with
      | some n => .ok n
      | none => .error "ValueError: invalid literal for int()"
  | .null => .error "TypeError: int() argument is None"
  | .arr _ => .error "TypeError: int() argument is a list"
  | .obj _ => .error "TypeError: int() argument is a dict"

/-- Python `str(x)` as used in f-string interpolation of scalar values. -/
def pyStr : Json → String
  | .null => "None"
  | .bool b => if b then "True" else "False"
  | .int n => toString n
  | .rat q => toString q
  | .str s => s
  | .arr _ => "[list]"
  | .obj _ => "[dict]"

/-- Check that `pat` starts the character list `s`. -/
def charsHasPre : List Char → List Char → Bool
  | [], _ => true
  | _ :: _, [] => false
  | p :: ps, c :: cs => p == c && charsHasPre ps cs

/-- Substring containment on character lists. -/
def charsContains (s pat : List Char) : Bool :=
  match s with
  | [] => pat.isEmpty
  | _ :: rest => charsHasPre pat s || charsContains rest pat

/-- Python `pat in s` on strings (substring containment). -/
def strContainsSub (s pat : String) : Bool :=
  charsContains s.data pat.data

/-- Python `s.lower()` (ASCII case folding, which is all the source needs). -/
def lowerStr (s : String) : String :=
  String.mk (s.data.map Char.toLower)

/-- Python `s[:20]` (code-point slicing). -/
def strTake (s : String) (n : ℕ) : String :=
  String.mk (s.data.take n)

/-!
Session state and the authenticator (`SDWANMCPServer.__init__`,
`_authenticate`, source lines 24-35 and 404-455).

The outcome of the login POST is supplied by an oracle value: either the
transport raised, or it produced a status code, a body text, and the
contents of the session cookie jar right after the POST (the jar is what
the source iterates looking for `JSESSIONID`).
-/

/-- Mutable attributes of the server object that the pipeline touches.
`session_id` is the session token; the other fields are configuration and
are never written after construction. -/
structure Session where
  base_url : String
  auth_url : String
  username : String
  password : String
  session_id : Option String

/-- Outcome of the login POST: a transport exception, or a response
(status code, body text, cookie jar contents after the POST). -/
inductive PostOutcome where
  | exn (msg : String) : PostOutcome
  | resp (status : ℕ) (text : String) (cookies : List (String × String)) : PostOutcome

/-- Embedding of `_authenticate` (source lines 404-455). Returns the result
dict exactly as the source builds it (note: failure is signalled by a
`status` key holding `"error"`; no result ever carries an `error` key),
together with the updated session state. -/
def authenticate (st : Session) (p : PostOutcome) : List (String × Json) × Session :=
  match p with
  | .exn msg =>
      ([("status", .str "error"),
        ("message", .str ("Authentication exception: " ++ msg))], st)
  | .resp status text cookies =>
      if status == 200 then
        let sid : Option String :=
          match cookies.find? (fun c => c.1 == "JSESSIONID") with
          | some c => some c.2
          | none => st.session_id
        let st1 : Session := { st with session_id := sid }
        if optTruthy sid then
          ([("status", .str "success"),
            ("message", .str "Authentication successful"),
            ("session_id", .str (strTake (sid.getD "") 20 ++ "...")),
            ("response", .str text)], st1)
        else
          ([("status", .str "error"),
            ("message", .str "Authentication failed - no session ID received"),
            ("response", .str text)], st1)
      else
        ([("status", .str "error"),
          ("message", .str ("Authentication failed with status code: " ++ toString status)),
          ("response", .str text)], st)

/-!
The request pipeline (`_make_request`, source lines 366-402).
-/

/-- Parsed outcome of one data GET: a transport exception, or a response
carrying the status code, final URL, raw body text, and the result of
parsing the body as JSON (`none` when parsing would raise ValueError). -/
inductive GetOutcome where
  | exn (msg : String) : GetOutcome
  | resp (status : ℕ) (url : String) (text : String) (jsonBody : Option Json) : GetOutcome

/-- Oracle for one `_make_request` call: the outcome of the i-th login POST
and of the i-th data GET issued during the call. -/
structure MRWorld where
  post : ℕ → PostOutcome
  get : ℕ → GetOutcome

/-- Result of one `_make_request` call: the returned value (or the raised
exception), how many `_authenticate` calls and GETs were performed, and the
final session state. -/
structure MROut where
  out : Except String Json
  nAuth : ℕ
  nGet : ℕ
  fin : Session

/-- Python `'data' in response_data` (raises TypeError on non-container
bodies; on a list it is element membership, where only the string
`"data"` can compare equal to `'data'`). -/
def pyContainsData : Json → Except String Bool
  | .obj kvs => .ok (hasKey kvs "data")
  | .arr xs => .ok (xs.any (fun j => jsonEqStr j "data"))
  | .str s => .ok (strContainsSub s "data")
  | _ => .error "TypeError: argument of type is not iterable"

/-- Python `response_data['data']` (valid on dicts holding the key;
raises TypeError on lists and strings). -/
def pySubscriptData : Json → Except String Json
  | .obj kvs =>
      match kvs.find? (fun p => p.1 == "data") with
      | some p => .ok p.2
      | none => .error "KeyError: data"
  | _ => .error "TypeError: indices must be integers"

/-- Envelope unwrapping: the tail of `_make_request` (source lines 395-402).
A ValueError from `response.json()` is caught and becomes a structured
error dict; a TypeError from the `in`/subscript steps is not caught. -/
def unwrapEnvelope (status : ℕ) (text : String) (jsonBody : Option Json) :
    Except String Json :=
  match jsonBody with
  | none =>
      .ok (.obj [("error", .str "Response is not in JSON format"),
                 ("response", .str text),
                 ("status_code", .int status)])
  | some j =>
      match pyContainsData j with
      | .error m => .error m
      | .ok true => pySubscriptData j
      | .ok false =>
          .ok (.obj [("error", .str "Key 'data' not found in response"),
                     ("response", .str text),
                     ("status_code", .int status)])

/-- Expired-session signal (source line 383): status 401 or a final URL
containing "login" case-insensitively. -/
def expiredSignal (status : ℕ) (url : String) : Bool :=
  status == 401 || strContainsSub (lowerStr url) "login"

/-- The part of `_make_request` after the lazy-authentication step: issue
the GET, run the expired-session re-authentication cycle at most once, and
unwrap the envelope. `nA` is the number of `_authenticate` calls already
performed (it indexes the oracle for the re-authentication POST). -/
def fetchAfterAuth (st : Session) (nA : ℕ) (w : MRWorld) : MROut :=
  match w.get 0 with
  | .exn m => { out := .error m, nAuth := nA, nGet := 1, fin := st }
  | .resp status url text jsonBody =>
      if expiredSignal status url then
        let ar := authenticate st (w.post nA)
        if hasKey ar.1 "error" then
          { out := .ok (.obj [("error", .str "Re-authentication failed"),
                              ("auth_error", .obj ar.1)]),
            nAuth := nA + 1, nGet := 1, fin := ar.2 }
        else
          match w.get 1 with
          | .exn m => { out := .error m, nAuth := nA + 1, nGet := 2, fin := ar.2 }
          | .resp s2 _ t2 b2 =>
              { out := unwrapEnvelope s2 t2 b2, nAuth := nA + 1, nGet := 2, fin := ar.2 }
      else
        { out := unwrapEnvelope status text jsonBody, nAuth := nA, nGet := 1, fin := st }

/-- Embedding of `_make_request` (source lines 366-402). Faithfully keeps
the source's guards, including the checks of an `error` key on the
authentication result dicts. -/
def make_request (st : Session) (w : MRWorld) : MROut :=
  if !(optTruthy st.session_id) then
    let ar := authenticate st (w.post 0)
    if hasKey ar.1 "error" then
      { out := .ok (.obj [("error", .str "Authentication required. Please authenticate first."),
                          ("auth_error", .obj ar.1)]),
        nAuth := 1, nGet := 0, fin := ar.2 }
    else
      fetchAfterAuth ar.2 1 w
  else
    fetchAfterAuth st 0 w

/-!
The aggregation engine (`_get_device_health_summary` and friends, source
lines 498-941). Each operation is a pure function of a `Snapshot`: the
values the `_make_request` fetches would produce during the call (an
`Except.error` field stands for a fetch that raised). Python code that can
raise inside an operation runs in `Except String`; the operation's outer
`try/except` turns such an error into the `Failed to ...` error dict,
modelled by the `Except.error` of the operation's result.
-/

/-- Upstream snapshot: what each fetch performed by an aggregation
operation returns during the call. -/
structure Snapshot where
  devices : Except String Json
  monitor : Except String Json
  counters : Except String Json
  interfaces : Except String Json
  bfd : Json → Except String Json
  tunnels : Json → Except String Json

/-- Dict test (Python `isinstance(x, dict)`-ish; used in well-formedness
hypotheses). -/
def isObj : Json → Bool
  | .obj _ => true
  | _ => false

/-!
Rational helpers standing for Python float operations.
-/

/-- Python `x % y` for a non-negative float dividend and positive divisor
(the only use in the source), as exact rationals. -/
def pymod (x y : ℚ) : ℚ := x - y * (⌊x / y⌋ : ℚ)

/-- Bankers rounding to an integer (Python `round`'s tie-breaking). -/
def roundHalfEven (x : ℚ) : ℤ :=
  if x - ⌊x⌋ < 1/2 then ⌊x⌋
  else if 1/2 < x - ⌊x⌋ then ⌊x⌋ + 1
  else if ⌊x⌋ % 2 = 0 then ⌊x⌋ else ⌊x⌋ + 1

/-- Python `round(x, 2)`. -/
def round2 (x : ℚ) : ℚ := (roundHalfEven (x * 100) : ℚ) / 100

/-!
Health summary (`_get_device_health_summary`, source lines 498-556).
-/

/-- Per-device record appended to `device_details`. -/
structure DeviceInfo where
  device_id : Json
  hostname : Json
  status : Json
  reachability : Json
  device_type : Json

/-- The `summary_stats` sub-dict (initialised to zeros and never updated
by the source). -/
structure SummaryStats where
  total_interfaces : ℤ
  active_interfaces : ℤ
  total_bfd_sessions : ℤ
  active_bfd_sessions : ℤ

/-- The health-summary result dict. -/
structure HealthSummary where
  total_devices : ℤ
  devices_up : ℤ
  devices_down : ℤ
  devices_with_issues : ℤ
  overall_health : String
  device_details : List DeviceInfo
  summary_stats : SummaryStats

/-- Initial summary value (source lines 506-519). -/
def hsInit : HealthSummary :=
  { total_devices := 0, devices_up := 0, devices_down := 0, devices_with_issues := 0,
    overall_health := "unknown", device_details := [], summary_stats := ⟨0, 0, 0, 0⟩ }

/-- Loop body over one device (source lines 524-539). -/
def healthDeviceStep (st : HealthSummary) (device : Json) : Except String HealthSummary := do
  let did ← pyGet device "deviceId" (.str "unknown")
  let hn ← pyGet device "hostname" (.str "unknown")
  let stt ← pyGet device "status" (.str "unknown")
  let rch ← pyGet device "reachability" (.str "unknown")
  let dt ← pyGet device "deviceType" (.str "unknown")
  let info : DeviceInfo := ⟨did, hn, stt, rch, dt⟩
  let rch2 ← pyGet device "reachability" .null
  let st1 :=
    if jsonEqStr rch2 "reachable" then { st with devices_up := st.devices_up + 1 }
    else { st with devices_down := st.devices_down + 1 }
  pure { st1 with device_details := st1.device_details ++ [info] }

/-- Up-percentage bucketing (source lines 542-551), evaluated only when
total is positive. -/
def overallHealthOf (up total : ℤ) : String :=
  if ((up : ℚ) / (total : ℚ)) * 100 ≥ 95 then "excellent"
  else if ((up : ℚ) / (total : ℚ)) * 100 ≥ 80 then "good"
  else if ((up : ℚ) / (total : ℚ)) * 100 ≥ 60 then "fair"
  else "poor"

/-- Final health computation (source lines 541-551). -/
def hsFinalize (st : HealthSummary) : HealthSummary :=
  if st.total_devices > 0 then
    { st with overall_health := overallHealthOf st.devices_up st.total_devices }
  else st

/-- Embedding of `_get_device_health_summary` (source lines 498-556). -/
def get_device_health_summary (snap : Snapshot) : Except String HealthSummary :=
  match (do
    let devices ← snap.devices
    let _ ← snap.monitor
    let _ ← snap.counters
    match devices with
    | Json.arr ds => do
        let st ← ds.foldlM healthDeviceStep { hsInit with total_devices := (ds.length : ℤ) }
        pure (hsFinalize st)
    | _ => pure (hsFinalize hsInit) : Except String HealthSummary) with
  | .ok s => .ok s
  | .error m => .error ("Failed to generate health summary: " ++ m)

/-!
Device alerts (`_get_device_alerts`, source lines 775-831).
-/

/-- One alert record. -/
structure Alert where
  device_id : Json
  hostname : Json
  severity : String
  message : String
  timestamp : Json

/-- The alerts result dict. -/
structure AlertSet where
  severity_filter : String
  total_alerts : ℤ
  critical_alerts : ℤ
  warning_alerts : ℤ
  info_alerts : ℤ
  alerts : List Alert

/-- Loop body over one device (source lines 791-825): a critical alert for
an unreachable device, then a warning/info alert for a non-normal status,
each appended and tallied only when it passes the severity filter. -/
def alertDeviceStep (severity : String) (st : AlertSet) (device : Json) :
    Except String AlertSet := do
  let did ← pyGet device "deviceId" .null
  let hn ← pyGet device "hostname" (.str "unknown")
  let rch ← pyGet device "reachability" .null
  let st1 ←
    if jsonEqStr rch "unreachable" then do
      let ts ← pyGet device "lastupdated" (.str "unknown")
      let al : Alert := ⟨did, hn, "critical", "Device is unreachable", ts⟩
      pure (if severity == "all" || severity == "critical" then
        { st with alerts := st.alerts ++ [al], critical_alerts := st.critical_alerts + 1 }
      else st)
    else pure st
  let stJ ← pyGet device "status" .null
  if !(jsonEqStr stJ "normal") then do
    let stS ← pyGet device "status" (.str "")
    let low ← match stS with
      | .str s => Except.ok (lowerStr s)
      | _ => Except.error "AttributeError: object has no attribute lower"
    let asev := if strContainsSub low "warning" then "warning" else "info"
    let ts ← pyGet device "lastupdated" (.str "unknown")
    let al : Alert := ⟨did, hn, asev, "Device status: " ++ pyStr stJ, ts⟩
    if severity == "all" || severity == asev then
      if asev == "warning" then
        pure { st1 with alerts := st1.alerts ++ [al], warning_alerts := st1.warning_alerts + 1 }
      else
        pure { st1 with alerts := st1.alerts ++ [al], info_alerts := st1.info_alerts + 1 }
    else pure st1
  else pure st1

/-- Embedding of `_get_device_alerts` (source lines 775-831). -/
def get_device_alerts (severity : String) (snap : Snapshot) : Except String AlertSet :=
  match (do
    let devices ← snap.devices
    let _ ← snap.monitor
    let base : AlertSet :=
      { severity_filter := severity, total_alerts := 0, critical_alerts := 0,
        warning_alerts := 0, info_alerts := 0, alerts := [] }
    match devices with
    | Json.arr ds => do
        let st ← ds.foldlM (alertDeviceStep severity) base
        pure { st with total_alerts := (st.alerts.length : ℤ) }
    | _ => pure { base with total_alerts := 0 } : Except String AlertSet) with
  | .ok a => .ok a
  | .error m => .error ("Failed to get device alerts: " ++ m)

/-!
BFD session health (`_check_bfd_session_health`, source lines 633-683).
-/

/-- One `session_details` record. -/
structure BfdDetail where
  device_id : Json
  session_id : Json
  state : Json
  local_address : Json
  remote_address : Json
  interface : Json

/-- The BFD health result dict (`session_details` is None when details are
not requested). -/
structure BfdSummary where
  total_devices_checked : ℤ
  devices_with_bfd : ℤ
  total_bfd_sessions : ℤ
  active_sessions : ℤ
  inactive_sessions : ℤ
  session_details : Option (List BfdDetail)

/-- Initial BFD summary (source lines 637-644). -/
def bfdInit (include_details : Bool) : BfdSummary :=
  { total_devices_checked := 0, devices_with_bfd := 0, total_bfd_sessions := 0,
    active_sessions := 0, inactive_sessions := 0,
    session_details := if include_details then some [] else none }

/-- Per-session loop (source lines 660-675). A raise inside the loop (a
non-dict session, or a `state` value without `.lower()`) hits the inner
`except: continue`, so the state accumulated so far is kept and the rest of
this device's sessions are skipped. -/
def bfdSessionsFold (include_details : Bool) (did : Json) :
    BfdSummary → List Json → BfdSummary
  | st, [] => st
  | st, s :: rest =>
      match s with
      | .obj kvs =>
          match lookupD kvs "state" (.str "") with
          | .str sv =>
              let st1 :=
                if lowerStr sv == "up" then { st with active_sessions := st.active_sessions + 1 }
                else { st with inactive_sessions := st.inactive_sessions + 1 }
              let st2 :=
                if include_details then
                  { st1 with session_details := st1.session_details.map (fun l => l ++
                      [⟨did, lookupD kvs "sessionId" .null, lookupD kvs "state" .null,
                        lookupD kvs "localAddress" .null, lookupD kvs "remoteAddress" .null,
                        lookupD kvs "interface" .null⟩]) }
                else st1
              bfdSessionsFold include_details did st2 rest
          | _ => st
      | _ => st

/-- Per-device loop body (source lines 647-678). `total_devices_checked`
is incremented before the inner try block; a failing per-device fetch then
hits `except: continue`. -/
def bfdDeviceStep (include_details : Bool) (snap : Snapshot) (st : BfdSummary)
    (device : Json) : Except String BfdSummary := do
  let did ← pyGet device "deviceId" .null
  if jsonTruthy did then
    let st := { st with total_devices_checked := st.total_devices_checked + 1 }
    match snap.bfd did with
    | .error _ => pure st
    | .ok sessions =>
        match sessions with
        | .arr ss =>
            if ss.length > 0 then
              let st := { st with
                devices_with_bfd := st.devices_with_bfd + 1,
                total_bfd_sessions := st.total_bfd_sessions + (ss.length : ℤ) }
              pure (bfdSessionsFold include_details did st ss)
            else pure st
        | _ => pure st
  else pure st

/-- Embedding of `_check_bfd_session_health` (source lines 633-683). -/
def check_bfd_session_health (include_details : Bool) (snap : Snapshot) :
    Except String BfdSummary :=
  match (do
    let devices ← snap.devices
    match devices with
    | Json.arr ds => ds.foldlM (bfdDeviceStep include_details snap) (bfdInit include_details)
    | _ => pure (bfdInit include_details) : Except String BfdSummary) with
  | .ok s => .ok s
  | .error m => .error ("Failed to check BFD session health: " ++ m)

/-!
Top interfaces by traffic (`_get_top_interfaces_by_traffic`, source lines
591-631).
-/

/-- Per-interface record with the derived `total_bytes`. -/
structure TrafficEntry where
  device_id : Json
  interface_name : Json
  rx_bytes : ℤ
  tx_bytes : ℤ
  rx_packets : ℤ
  tx_packets : ℤ
  rx_errors : ℤ
  tx_errors : ℤ
  total_bytes : ℤ

/-- Build one entry from an interface dict (source lines 600-612). -/
def trafficEntryOf (interface : Json) : Except String TrafficEntry := do
  let did ← pyGet interface "deviceId" (.str "unknown")
  let iname ← pyGet interface "interface" (.str "unknown")
  let rxj ← pyGet interface "rx_octets" (.int 0)
  let rx ← pyInt rxj
  let txj ← pyGet interface "tx_octets" (.int 0)
  let tx ← pyInt txj
  let rxpj ← pyGet interface "rx_pkts" (.int 0)
  let rxp ← pyInt rxpj
  let txpj ← pyGet interface "tx_pkts" (.int 0)
  let txp ← pyInt txpj
  let rxej ← pyGet interface "rx_errors" (.int 0)
  let rxe ← pyInt rxej
  let txej ← pyGet interface "tx_errors" (.int 0)
  let txe ← pyInt txej
  pure { device_id := did, interface_name := iname, rx_bytes := rx, tx_bytes := tx,
         rx_packets := rxp, tx_packets := txp, rx_errors := rxe, tx_errors := txe,
         total_bytes := rx + tx }

/-- The sort key selected by the metric name (source line 618). -/
def metricKey (metric : String) (e : TrafficEntry) : ℤ :=
  if metric == "rx_bytes" then e.rx_bytes
  else if metric == "tx_bytes" then e.tx_bytes
  else if metric == "total_bytes" then e.total_bytes
  else if metric == "rx_packets" then e.rx_packets
  else if metric == "tx_packets" then e.tx_packets
  else 0

/-- The metric names the source sorts by (source line 617). -/
def validMetric (metric : String) : Bool :=
  metric == "rx_bytes" || metric == "tx_bytes" || metric == "total_bytes" ||
  metric == "rx_packets" || metric == "tx_packets"

/-- Python `xs[:limit]` (a negative limit counts from the end). -/
def pySliceTo {α : Type} (xs : List α) (limit : ℤ) : List α :=
  if 0 ≤ limit then xs.take limit.toNat
  else xs.take (xs.length - (-limit).toNat)

/-- The top-interfaces result dict. -/
structure TopInterfacesResult where
  metric : String
  limit : ℤ
  total_interfaces : ℤ
  top_interfaces : List TrafficEntry

/-- Embedding of `_get_top_interfaces_by_traffic` (source lines 591-631).
Python's `list.sort(key=..., reverse=True)` is a stable descending sort,
modelled by `insertionSort` with the reversed order (stable sorts under
the same total preorder agree pointwise). -/
def get_top_interfaces_by_traffic (limit : ℤ) (metric : String) (snap : Snapshot) :
    Except String TopInterfacesResult :=
  match (do
    let interfaces ← snap.interfaces
    match interfaces with
    | Json.arr xs => do
        let entries ← xs.mapM trafficEntryOf
        let sorted :=
          if validMetric metric then
            entries.insertionSort (fun a b => metricKey metric b ≤ metricKey metric a)
          else entries
        pure { metric := metric, limit := limit, total_interfaces := (xs.length : ℤ),
               top_interfaces := pySliceTo sorted limit }
    | _ => pure { metric := metric, limit := limit, total_interfaces := 0,
                  top_interfaces := [] } : Except String TopInterfacesResult) with
  | .ok r => .ok r
  | .error m => .error ("Failed to get top interfaces: " ++ m)

/-!
Interface utilization (`_monitor_interface_utilization`, source lines
833-878).
-/

/-- One `interfaces_over_threshold` record. -/
structure UtilEntry where
  device_id : Json
  interface : Json
  utilization_percent : ℚ
  rx_bytes : ℤ
  tx_bytes : ℤ
  status : Json

/-- The utilization result dict. -/
structure UtilizationReport where
  threshold_percent : ℚ
  total_interfaces : ℤ
  high_utilization_interfaces : ℤ
  interfaces_over_threshold : List UtilEntry
  average_utilization : ℚ

/-- The source's mock utilization formula (source line 857):
`min(((rx_bytes + tx_bytes) / 1000000) % 100, 100)` in float arithmetic,
as exact rationals. -/
def mockUtilOf (rx tx : ℤ) : ℚ :=
  min (pymod (((rx + tx : ℤ) : ℚ) / 1000000) 100) 100

/-- Loop state: running utilization total, high count, flagged entries. -/
structure UtilState where
  total_utilization : ℚ
  high : ℤ
  over : List UtilEntry

/-- Loop body over one interface (source lines 850-870). -/
def utilStep (threshold : ℚ) (st : UtilState) (interface : Json) :
    Except String UtilState := do
  let rxj ← pyGet interface "rx_octets" (.int 0)
  let rx ← pyInt rxj
  let txj ← pyGet interface "tx_octets" (.int 0)
  let tx ← pyInt txj
  let mock := mockUtilOf rx tx
  let st1 := { st with total_utilization := st.total_utilization + mock }
  if mock > threshold then do
    let did ← pyGet interface "deviceId" .null
    let iname ← pyGet interface "interface" .null
    let stt ← pyGet interface "if-admin-status" .null
    pure { st1 with
      high := st1.high + 1,
      over := st1.over ++ [⟨did, iname, round2 mock, rx, tx, stt⟩] }
  else pure st1

/-- Embedding of `_monitor_interface_utilization` (source lines 833-878). -/
def monitor_interface_utilization (threshold : ℚ) (snap : Snapshot) :
    Except String UtilizationReport :=
  match (do
    let interfaces ← snap.interfaces
    match interfaces with
    | Json.arr xs => do
        let st ← xs.foldlM (utilStep threshold) ⟨0, 0, []⟩
        let avg := if xs.length > 0 then round2 (st.total_utilization / (xs.length : ℚ)) else 0
        pure { threshold_percent := threshold, total_interfaces := (xs.length : ℤ),
               high_utilization_interfaces := st.high,
               interfaces_over_threshold := st.over,
               average_utilization := avg }
    | _ => pure { threshold_percent := threshold, total_interfaces := 0,
                  high_utilization_interfaces := 0, interfaces_over_threshold := [],
                  average_utilization := 0 } : Except String UtilizationReport) with
  | .ok r => .ok r
  | .error m => .error ("Failed to monitor interface utilization: " ++ m)

/-!
Network report (`_generate_network_report`, source lines 685-773).
-/

/-- A Python dict key as used by the device-type/version tallies (Python
unifies numerically equal keys such as True, 1 and 1.0; lists and dicts are
unhashable and raise). -/
inductive PyKey where
  | noneK : PyKey
  | numK (q : ℚ) : PyKey
  | strK (s : String) : PyKey
deriving BEq

/-- Conversion of a JSON value to a dict key (raises TypeError on
unhashable values, as Python does). -/
def pyKeyOf : Json → Except String PyKey
  | .null => .ok .noneK
  | .bool b => .ok (.numK (if b then 1 else 0))
  | .int n => .ok (.numK (n : ℚ))
  | .rat q => .ok (.numK q)
  | .str s => .ok (.strK s)
  | .arr _ => .error "TypeError: unhashable type list"
  | .obj _ => .error "TypeError: unhashable type dict"

/-- Python `d[key] = d.get(key, 0) + 1` on an insertion-ordered dict. -/
def tallyBump (t : List (PyKey × ℤ)) (k : PyKey) : List (PyKey × ℤ) :=
  if t.any (fun p => p.1 == k) then
    t.map (fun p => if p.1 == k then (p.1, p.2 + 1) else p)
  else t ++ [(k, 1)]

/-- The `device_summary` section. -/
structure DeviceSummary where
  total_devices : ℤ
  device_types : List (PyKey × ℤ)
  software_versions : List (PyKey × ℤ)

/-- The `interface_summary` slot: None (section disabled), the initial
empty dict (interface fetch did not yield a list), or the computed stats. -/
inductive IntfSummaryState where
  | nullS : IntfSummaryState
  | emptyS : IntfSummaryState
  | stats (total_interfaces active_interfaces high_error_interfaces : ℤ) : IntfSummaryState

/-- The `tunnel_summary` section. -/
structure TunnelSummary where
  total_tunnels : ℤ
  active_tunnels : ℤ

/-- The report dict. `network_overview` and `bfd_summary` hold the result
dicts of the corresponding operations (which catch internally), the
optional sections are None when disabled. -/
structure NetworkReport where
  report_timestamp : ℚ
  network_overview : Except String HealthSummary
  device_summary : Option DeviceSummary
  interface_summary : IntfSummaryState
  bfd_summary : Option (Except String BfdSummary)
  tunnel_summary : Option TunnelSummary
  recommendations : List String

/-- Counted comprehension `len([i for i in xs if p(i)])` where the
predicate may raise. -/
def countME (xs : List Json) (p : Json → Except String Bool) : Except String ℤ :=
  xs.foldlM (fun acc i => do
    let b ← p i
    pure (if b then acc + 1 else acc)) 0

/-- The active-interface test (source line 726). -/
def activeIntfOf (i : Json) : Except String Bool := do
  let s ← pyGet i "if-admin-status" Json.null
  pure (jsonEqStr s "up")

/-- The high-error test with Python's short-circuit `or` (source lines
727-728). -/
def highErrorOf (i : Json) : Except String Bool := do
  let rxj ← pyGet i "rx_errors" (.int 0)
  let rxe ← pyInt rxj
  if rxe > 100 then pure true
  else do
    let txj ← pyGet i "tx_errors" (.int 0)
    let txe ← pyInt txj
    pure (txe > 100)

/-- Device-type and software-version tallies (source lines 703-718). -/
def deviceSummaryOf (ds : List Json) : Except String DeviceSummary := do
  let t ← ds.foldlM (fun (acc : List (PyKey × ℤ) × List (PyKey × ℤ)) device => do
      let dt ← pyGet device "deviceType" (.str "unknown")
      let sv ← pyGet device "version" (.str "unknown")
      let kd ← pyKeyOf dt
      let ks ← pyKeyOf sv
      pure (tallyBump acc.1 kd, tallyBump acc.2 ks)) ([], [])
  pure { total_devices := (ds.length : ℤ), device_types := t.1,
         software_versions := t.2 }

/-- Per-device tunnel-statistics accumulation with the inner
`except: continue` (source lines 737-747). -/
def tunnelStatsFold (snap : Snapshot) (acc : List Json) (device : Json) :
    Except String (List Json) := do
  let did ← pyGet device "deviceId" Json.null
  if jsonTruthy did then
    match snap.tunnels did with
    | .error _ => pure acc
    | .ok td =>
        match td with
        | .arr ts => pure (acc ++ ts)
        | _ => pure acc
  else pure acc

/-- The report computation apart from the timestamp (which the source
samples at entry and stores verbatim in `report_timestamp`). -/
def networkReportCore (include_interfaces include_bfd include_tunnels : Bool)
    (snap : Snapshot) : Except String NetworkReport := do
  let overview := get_device_health_summary snap
  let devices ← snap.devices
  let device_summary ← (match devices with
    | Json.arr ds => do
        let s ← deviceSummaryOf ds
        pure (some s)
    | _ => pure none : Except String (Option DeviceSummary))
  let interface_summary ← (if include_interfaces then do
      let interfaces ← snap.interfaces
      match interfaces with
      | Json.arr xs => do
          let act ← countME xs activeIntfOf
          let he ← countME xs highErrorOf
          pure (IntfSummaryState.stats (xs.length : ℤ) act he)
      | _ => pure IntfSummaryState.emptyS
    else pure IntfSummaryState.nullS : Except String IntfSummaryState)
  let bfd_summary := if include_bfd then some (check_bfd_session_health false snap) else none
  let tunnel_summary ← (if include_tunnels then do
      let stats ← (match devices with
        | Json.arr ds => ds.foldlM (tunnelStatsFold snap) []
        | _ => pure [] : Except String (List Json))
      let act ← countME stats (fun t => do
        let s ← pyGet t "state" Json.null
        pure (jsonEqStr s "up"))
      pure (some { total_tunnels := (stats.length : ℤ), active_tunnels := act })
    else pure none : Except String (Option TunnelSummary))
  let devicesDown : ℤ := match overview with
    | .ok s => s.devices_down
    | .error _ => 0
  let highErr : ℤ := match interface_summary with
    | .stats _ _ he => he
    | _ => 0
  let inactive : ℤ := match bfd_summary with
    | some (.ok s) => s.inactive_sessions
    | _ => 0
  let recs :=
    (if devicesDown > 0 then
      ["⚠️ Some devices are unreachable - check network connectivity"] else []) ++
    (if include_interfaces = true ∧ highErr > 0 then
      ["⚠️ Some interfaces have high error rates - investigate potential issues"] else []) ++
    (if include_bfd = true ∧ inactive > 0 then
      ["⚠️ Some BFD sessions are inactive - verify network paths"] else [])
  let recommendations :=
    if recs.isEmpty then ["✅ Network appears to be operating normally"] else recs
  pure { report_timestamp := 0, network_overview := overview,
         device_summary := device_summary, interface_summary := interface_summary,
         bfd_summary := bfd_summary, tunnel_summary := tunnel_summary,
         recommendations := recommendations }

/-- Embedding of `_generate_network_report` (source lines 685-773). `now`
is the event-loop time sampled at entry. -/
def generate_network_report (now : ℚ)
    (include_interfaces include_bfd include_tunnels : Bool) (snap : Snapshot) :
    Except String NetworkReport :=
  match networkReportCore include_interfaces include_bfd include_tunnels snap with
  | .ok r => .ok { r with report_timestamp := now }
  | .error m => .error ("Failed to generate network report: " ++ m)

/-- Forgetting the timestamp field of a report result. -/
def stripTimestamp : Except String NetworkReport → Except String NetworkReport
  | .ok r => .ok { r with report_timestamp := 0 }
  | .error m => .error m

/-- Timestamp projection of a report result. -/
def tsOf : Except String NetworkReport → ℚ
  | .ok r => r.report_timestamp
  | .error _ => 0

/-!
Snapshot builders used by the theorems below.
-/

/-- Snapshot whose device list is the given list and whose other upstream
data is empty. -/
def mkDevSnapshot (ds : List Json) : Snapshot :=
  { devices := .ok (.arr ds), monitor := .ok (.arr []), counters := .ok (.arr []),
    interfaces := .ok (.arr []), bfd := fun _ => .ok (.arr []),
    tunnels := fun _ => .ok (.arr []) }

/-- Snapshot whose interface list is the given list. -/
def mkIntfSnapshot (xs : List Json) : Snapshot :=
  { devices := .ok (.arr []), monitor := .ok (.arr []), counters := .ok (.arr []),
    interfaces := .ok (.arr xs), bfd := fun _ => .ok (.arr []),
    tunnels := fun _ => .ok (.arr []) }

/-- Snapshot with a device list and a custom per-device BFD fetch map. -/
def mkBfdSnapshot (ds : List Json) (bfd : Json → Except String Json) : Snapshot :=
  { devices := .ok (.arr ds), monitor := .ok (.arr []), counters := .ok (.arr []),
    interfaces := .ok (.arr []), bfd := bfd, tunnels := fun _ => .ok (.arr []) }

/-- Predicate from claim C8: the device counts as up exactly when its
`reachability` field equals the string `"reachable"`. -/
def reachableP (d : Json) : Bool := jsonEqStr (dgetD d "reachability" Json.null) "reachable"

/-- The `device_details` record the health summary builds for a device. -/
def healthInfoOf (d : Json) : DeviceInfo :=
  { device_id := dgetD d "deviceId" (.str "unknown"),
    hostname := dgetD d "hostname" (.str "unknown"),
    status := dgetD d "status" (.str "unknown"),
    reachability := dgetD d "reachability" (.str "unknown"),
    device_type := dgetD d "deviceType" (.str "unknown") }

/-- Ten devices, nine of them reachable (the concrete scenario of C8). -/
def devNineOfTen : List Json :=
  List.replicate 9 (Json.obj [("reachability", Json.str "reachable")]) ++ [Json.obj []]

/-- Predicate from claim C6: the device's `reachability` field equals the
string `"unreachable"`. -/
def unreachableP (d : Json) : Bool := jsonEqStr (dgetD d "reachability" Json.null) "unreachable"

/-- The critical alert the source emits for an unreachable device. -/
def critAlertOf (d : Json) : Alert :=
  { device_id := dgetD d "deviceId" Json.null,
    hostname := dgetD d "hostname" (.str "unknown"),
    severity := "critical",
    message := "Device is unreachable",
    timestamp := dgetD d "lastupdated" (.str "unknown") }

/-- Device well-formedness for the alerts loop: a dict whose `status` field
(defaulting to the empty string) is a string, so `.lower()` cannot raise. -/
def alertWF (d : Json) : Bool :=
  isObj d && (match dgetD d "status" (Json.str "") with
    | .str _ => true
    | _ => false)

/-- Concrete device list for the C6 witness: one unreachable device, one
device with a warning status. -/
def alertDevs : List Json :=
  [Json.obj [("deviceId", Json.str "A"), ("reachability", Json.str "unreachable"),
             ("status", Json.str "normal")],
   Json.obj [("deviceId", Json.str "B"), ("reachability", Json.str "reachable"),
             ("status", Json.str "minor-warning")]]

/-- Bumping only the checked-devices counter (what a failing per-device BFD
fetch contributes). -/
def bumpChecked (s : BfdSummary) : BfdSummary :=
  { s with total_devices_checked := s.total_devices_checked + 1 }

/-- Snapshot for the C7 counterexample: a single device whose BFD-sessions
fetch raises. -/
def bfdFailSnap : Snapshot :=
  mkBfdSnapshot [Json.obj [("deviceId", Json.str "A")]] (fun _ => .error "boom")

/-- Concrete interface list for C9: total_bytes values
[100, 50, 900, 10, 500, 200] (rx only, tx zero). -/
def trafficIfaces : List Json :=
  [Json.obj [("rx_octets", Json.int 100)],
   Json.obj [("rx_octets", Json.int 50)],
   Json.obj [("rx_octets", Json.int 900)],
   Json.obj [("rx_octets", Json.int 10)],
   Json.obj [("rx_octets", Json.int 500)],
   Json.obj [("rx_octets", Json.int 200)]]

/-- Concrete interface for the C10 counterexample: rx+tx = 99 999 000
bytes, giving a mock utilization of 99.999 whose 2-decimal rounding is
exactly 100. -/
def utilIface : List Json := [Json.obj [("rx_octets", Json.int 99999000)]]

/-- Interface well-formedness for the utilization loop: a dict whose rx/tx
octet fields coerce with `int()` to non-negative integers. -/
def utilWF (i : Json) : Prop :=
  isObj i = true ∧ ∃ rx tx : ℤ, 0 ≤ rx ∧ 0 ≤ tx ∧
    pyInt (dgetD i "rx_octets" (Json.int 0)) = Except.ok rx ∧
    pyInt (dgetD i "tx_octets" (Json.int 0)) = Except.ok tx

/-!
Concrete sessions, worlds and snapshots used by the claim theorems, and
result-shape predicates used in their statements.
-/

/-- A JSON value that is a dict carrying an `error` key (the structured
error shape of the pipeline). -/
def errorCarrier : Json → Bool
  | .obj kvs => hasKey kvs "error"
  | _ => false

/-- A body-parse outcome whose JSON (when it parses) is a dict. -/
def dictishBody : Option Json → Bool
  | none => true
  | some (.obj _) => true
  | some _ => false

/-- A GET outcome that is a transport-level response whose body is either
non-JSON or a JSON dict. -/
def respDictish : GetOutcome → Bool
  | .exn _ => false
  | .resp _ _ _ b => dictishBody b

/-- The `data` member of a parsed body, when the body is a dict holding
one. -/
def dataOfBody : Option Json → Option Json
  | some (.obj kvs) => (kvs.find? (fun p => p.1 == "data")).map (fun p => p.2)
  | _ => none

/-- The `data` member of a GET outcome's body. -/
def dataOf : GetOutcome → Option Json
  | .resp _ _ _ b => dataOfBody b
  | .exn _ => none

/-- Concrete session holding a token; used by counterexamples. -/
def stTok : Session :=
  { base_url := "https://c", auth_url := "https://c/j_security_check",
    username := "admin", password := "1", session_id := some "TOK" }

/-- Concrete world in which the (only) GET raises a transport error. -/
def wGetRaises : MRWorld :=
  { post := fun _ => .exn "unused", get := fun _ => .exn "connection refused" }

/-- Concrete world whose GETs return a dict body with a `data` member. -/
def wDataOk : MRWorld :=
  { post := fun _ => .resp 200 "w" [("JSESSIONID", "S")],
    get := fun _ => .resp 200 "https://c/d" "body" (some (.obj [("data", .int 5)])) }

/-- Concrete session with no token held. -/
def stNoTok : Session :=
  { base_url := "https://c", auth_url := "https://c/j_security_check",
    username := "admin", password := "1", session_id := none }

/-- World for the lazy-authentication half of C2: the login POST is refused
with status 500 (so `_authenticate` reports failure), yet the GET answers
normally. -/
def wAuthFails : MRWorld :=
  { post := fun _ => .resp 500 "denied" [],
    get := fun _ => .resp 200 "https://c/d" "body" (some (.obj [("data", .int 7)])) }

/-- World for the re-authentication half of C2: the first GET signals an
expired session (401), the re-authentication POST is refused with status
500, yet the retried GET answers normally. -/
def wReauthFails : MRWorld :=
  { post := fun _ => .resp 500 "denied" [],
    get := fun i => if i == 0
      then .resp 401 "https://c/d" "expired" none
      else .resp 200 "https://c/d" "body" (some (.obj [("data", .int 9)])) }

/-- World in which the first GET and the retried GET both answer 401. -/
def wDouble401 : MRWorld :=
  { post := fun _ => .resp 200 "w" [("JSESSIONID", "S2")],
    get := fun i => if i == 0
      then .resp 401 "https://c/d" "expired" none
      else .resp 401 "https://c/d" "still expired" none }

/-- Session that still holds a stale token from an earlier login. -/
def stOld : Session :=
  { base_url := "https://c", auth_url := "https://c/j_security_check",
    username := "admin", password := "1", session_id := some "OLDSESSIONID" }

/-!
Helper lemmas about the authenticator and the envelope step.
-/

/-- Reduction of `Except` bind on a success value. -/
theorem ok_bind {ε α β : Type} (a : α) (f : α → Except ε β) :
    (Except.ok a : Except ε α) >>= f = f a := rfl

/-- Reduction of `Except` bind on an error value. -/
theorem error_bind {ε α β : Type} (e : ε) (f : α → Except ε β) :
    (Except.error e : Except ε α) >>= f = Except.error e := rfl

/-- Pure in the `Except` monad is `Except.ok`. -/
theorem pure_eq_ok {ε α : Type} (a : α) : (pure a : Except ε α) = Except.ok a := rfl

/-- The result dict of `_authenticate` never carries an `error` key: success
and the three failure shapes all use `status`/`message`/... keys only. This
is why the `if "error" in auth_result` guards in `_make_request` can never
fire. -/
theorem auth_result_has_no_error_key (st : Session) (p : PostOutcome) :
    hasKey (authenticate st p).1 "error" = false := by
  cases p with
  | exn m => rfl
  | resp status text cookies =>
      simp only [authenticate]
      by_cases h : (status == 200) = true
      · simp only [h, if_true]
        by_cases htr : optTruthy (match cookies.find? (fun c => c.1 == "JSESSIONID") with
            | some c => some c.2
            | none => st.session_id) = true
        · simp only [htr, if_true]; rfl
        · simp only [eq_false_of_ne_true htr, if_false]; rfl
      · simp only [eq_false_of_ne_true h, if_false]; rfl

/-- The authenticator only ever writes the `session_id` field of the
session state; configuration fields are preserved. -/
theorem authenticate_touches_only_token (st : Session) (p : PostOutcome) :
    (authenticate st p).2.base_url = st.base_url ∧
    (authenticate st p).2.auth_url = st.auth_url ∧
    (authenticate st p).2.username = st.username ∧
    (authenticate st p).2.password = st.password := by
  cases p with
  | exn m => exact ⟨rfl, rfl, rfl, rfl⟩
  | resp status text cookies =>
      simp only [authenticate]
      by_cases h : (status == 200) = true
      · simp only [h, if_true]
        by_cases htr : optTruthy (match cookies.find? (fun c => c.1 == "JSESSIONID") with
            | some c => some c.2
            | none => st.session_id) = true
        · simp only [htr, if_true]
          refine ⟨?_, ?_, ?_, ?_⟩ <;> trivial
        · simp only [eq_false_of_ne_true htr, if_false]
          refine ⟨?_, ?_, ?_, ?_⟩ <;> trivial
      · simp only [eq_false_of_ne_true h, if_false]
        refine ⟨?_, ?_, ?_, ?_⟩ <;> trivial

theorem hasKey_eq_isSome_find (kvs : List (String × Json)) (k : String) :
    hasKey kvs k = (kvs.find? (fun p => p.1 == k)).isSome := by
  induction kvs with
  | nil => rfl
  | cons p rest ih =>
      simp only [hasKey, List.any_cons, List.find?]
      by_cases h : (p.1 == k) = true
      · simp [h]
      · simp only [eq_false_of_ne_true h, Bool.false_or, List.find?]
        simpa [hasKey] using ih

/-- Envelope unwrapping over a non-JSON or dict body never raises, and
yields either the `data` payload or a dict carrying an `error` key. -/
theorem unwrapEnvelope_structured (status : ℕ) (text : String) (b : Option Json)
    (hb : dictishBody b = true) :
    ∃ v, unwrapEnvelope status text b = .ok v ∧
      (errorCarrier v = true ∨ dataOfBody b = some v) := by
  match b with
  | none => exact ⟨_, rfl, Or.inl rfl⟩
  | some (.obj kvs) =>
      simp only [unwrapEnvelope, pyContainsData, dataOfBody]
      by_cases h : hasKey kvs "data" = true
      · have hs := hasKey_eq_isSome_find kvs "data"
        rw [h] at hs
        match hfind : kvs.find? (fun p => p.1 == "data") with
        | none => rw [hfind] at hs; simp at hs
        | some p =>
            refine ⟨p.2, ?_, Or.inr ?_⟩
            · simp only [h, pySubscriptData, hfind]
            · simp [hfind]
      · have h' : hasKey kvs "data" = false := eq_false_of_ne_true h
        exact ⟨.obj [("error", .str "Key 'data' not found in response"),
                     ("response", .str text),
                     ("status_code", .int status)],
               by simp only [h'], Or.inl rfl⟩
  | some (.bool _) => simp [dictishBody] at hb
  | some (.int _) => simp [dictishBody] at hb
  | some (.rat _) => simp [dictishBody] at hb
  | some (.str _) => simp [dictishBody] at hb
  | some (.arr _) => simp [dictishBody] at hb
  | some .null => simp [dictishBody] at hb

theorem fetchAfterAuth_structured (st : Session) (nA : ℕ) (w : MRWorld)
    (h0 : respDictish (w.get 0) = true) (h1 : respDictish (w.get 1) = true) :
    ∃ v, (fetchAfterAuth st nA w).out = .ok v ∧
      (errorCarrier v = true ∨ dataOf (w.get 0) = some v ∨ dataOf (w.get 1) = some v) := by
  match hg0 : w.get 0 with
  | .exn m => rw [hg0] at h0; simp [respDictish] at h0
  | .resp s0 u0 t0 b0 =>
      rw [hg0] at h0
      simp only [fetchAfterAuth, hg0]
      by_cases hexp : expiredSignal s0 u0 = true
      · simp only [hexp, if_true, auth_result_has_no_error_key, Bool.false_eq_true, if_false]
        match hg1 : w.get 1 with
        | .exn m => rw [hg1] at h1; simp [respDictish] at h1
        | .resp s1 u1 t1 b1 =>
            rw [hg1] at h1
            obtain ⟨v, hv, hd⟩ := unwrapEnvelope_structured s1 t1 b1 h1
            exact ⟨v, hv, hd.elim Or.inl (fun h => Or.inr (Or.inr (by simpa [dataOf, hg1] using h)))⟩
      · simp only [eq_false_of_ne_true hexp, if_false]
        obtain ⟨v, hv, hd⟩ := unwrapEnvelope_structured s0 t0 b0 h0
        exact ⟨v, hv, hd.elim Or.inl (fun h => Or.inr (Or.inl (by simpa [dataOf, hg0] using h)))⟩

/-!
Claim C1.
-/

/-- Claim C1 counterexample: with a valid token held, a transport failure of
the GET propagates out of `_make_request` as an exception (the GET is not
inside the try block), so fetch does not always return a value. -/
theorem fetch_transport_failure_raises :
    (make_request stTok wGetRaises).out = Except.error "connection refused" := by rfl

/-- Claim C1 (amended): when every GET the pipeline issues yields a
transport-level response whose body is non-JSON or a JSON dict, fetch never
raises: it returns either the unwrapped `data` payload of a GET response or
a structured dict carrying an `error` key. (A transport failure during a
GET, by contrast, propagates as an exception.) -/
theorem fetch_structured_or_payload (st : Session) (w : MRWorld)
    (h0 : respDictish (w.get 0) = true) (h1 : respDictish (w.get 1) = true) :
    ∃ v, (make_request st w).out = .ok v ∧
      (errorCarrier v = true ∨ dataOf (w.get 0) = some v ∨ dataOf (w.get 1) = some v) := by
  simp only [make_request]
  by_cases htr : optTruthy st.session_id = true
  · simp only [htr, Bool.not_true, Bool.false_eq_true, if_false]
    exact fetchAfterAuth_structured st 0 w h0 h1
  · simp only [eq_false_of_ne_true htr, Bool.not_false, if_true,
      auth_result_has_no_error_key, Bool.false_eq_true, if_false]
    exact fetchAfterAuth_structured _ 1 w h0 h1

/-- Witness for the amended claim C1 at a concrete world. -/
theorem fetch_structured_or_payload_witness :
    respDictish (wDataOk.get 0) = true ∧ respDictish (wDataOk.get 1) = true ∧
    ∃ v, (make_request stTok wDataOk).out = .ok v ∧
      (errorCarrier v = true ∨ dataOf (wDataOk.get 0) = some v ∨ dataOf (wDataOk.get 1) = some v) :=
  ⟨rfl, rfl, fetch_structured_or_payload stTok wDataOk rfl rfl⟩

/-!
Claim C2.
-/

/-- Claim C2 evaluated against the code: `_authenticate` signals failure
through a `status` key, never through an `error` key, so both
`if "error" in auth_result` guards in `_make_request` are unreachable.
Concretely: (1) with no token held and a failing login, fetch still issues
the GET (one GET performed) and returns its payload instead of the
`Authentication required` error; (2) after an expired-session signal with a
failing re-login, fetch still issues the retried GET (two GETs performed)
and returns its payload instead of the `Re-authentication failed` error. -/
theorem fetch_ignores_failed_authentication :
    (∀ (st : Session) (p : PostOutcome), hasKey (authenticate st p).1 "error" = false) ∧
    ((make_request stNoTok wAuthFails).out = Except.ok (.int 7) ∧
      (make_request stNoTok wAuthFails).nGet = 1) ∧
    ((make_request stTok wReauthFails).out = Except.ok (.int 9) ∧
      (make_request stTok wReauthFails).nGet = 2 ∧
      (make_request stTok wReauthFails).nAuth = 1) :=
  ⟨auth_result_has_no_error_key, ⟨rfl, rfl⟩, ⟨rfl, rfl, rfl⟩⟩

/-!
Claim C3.
-/

/-- Claim C3: whenever the first GET comes back with a 401 status or a
login-page URL, `_make_request` performs exactly one re-authentication (one
authentication call beyond the lazy one, if any) and exactly one retried
GET, and hands the retried response straight to envelope unwrapping — even
if that retried response is itself a 401. -/
theorem fetch_retries_exactly_once (st : Session) (w : MRWorld)
    (s0 : ℕ) (u0 t0 : String) (b0 : Option Json)
    (hg0 : w.get 0 = .resp s0 u0 t0 b0)
    (hexp : expiredSignal s0 u0 = true)
    (s1 : ℕ) (u1 t1 : String) (b1 : Option Json)
    (hg1 : w.get 1 = .resp s1 u1 t1 b1) :
    (make_request st w).nGet = 2 ∧
    (make_request st w).nAuth = (if optTruthy st.session_id then 1 else 2) ∧
    (make_request st w).out = unwrapEnvelope s1 t1 b1 := by
  simp only [make_request]
  by_cases htr : optTruthy st.session_id = true
  · simp only [htr, Bool.not_true, Bool.false_eq_true, if_false, if_true,
      fetchAfterAuth, hg0, hexp, auth_result_has_no_error_key, hg1]
    refine ⟨?_, ?_, ?_⟩ <;> trivial
  · simp only [eq_false_of_ne_true htr, Bool.not_false, if_true, if_false,
      auth_result_has_no_error_key, Bool.false_eq_true,
      fetchAfterAuth, hg0, hexp, hg1]
    refine ⟨?_, ?_, ?_⟩ <;> trivial

/-- Witness for claim C3: a token-holding session whose GET answers 401 and
whose retried GET answers 401 again — one re-authentication, two GETs, and
the second response goes to envelope unwrapping. -/
theorem fetch_retries_exactly_once_witness :
    wDouble401.get 0 = .resp 401 "https://c/d" "expired" none ∧
    expiredSignal 401 "https://c/d" = true ∧
    wDouble401.get 1 = .resp 401 "https://c/d" "still expired" none ∧
    ((make_request stTok wDouble401).nGet = 2 ∧
      (make_request stTok wDouble401).nAuth = (if optTruthy stTok.session_id then 1 else 2) ∧
      (make_request stTok wDouble401).out = unwrapEnvelope 401 "still expired" none) :=
  ⟨rfl, rfl, rfl,
    fetch_retries_exactly_once stTok wDouble401 401 "https://c/d" "expired" none rfl rfl
      401 "https://c/d" "still expired" none rfl⟩

/-!
Claim C4.
-/

/-- Claim C4 counterexample: the login POST returns HTTP 200 with an empty
cookie jar (no JSESSIONID), yet — because a prior token is still held —
`_authenticate` reports success, not the "no session ID received"
failure. The claim's "regardless of the prior token state" is false. -/
theorem auth_missing_cookie_reports_success_with_stale_token :
    lookupD (authenticate stOld (.resp 200 "welcome" [])).1 "status" .null = Json.str "success" ∧
    lookupD (authenticate stOld (.resp 200 "welcome" [])).1 "message" .null =
      Json.str "Authentication successful" := ⟨rfl, rfl⟩

/-- Claim C4 (amended): on an HTTP 200 login response whose cookie jar holds
no JSESSIONID cookie, `_authenticate` reports the "no session ID received"
failure provided the session holds no (truthy) prior token; with a truthy
prior token it instead reports success based on the stale token. -/
theorem auth_missing_cookie_reports_failure (st : Session) (text : String)
    (cookies : List (String × String))
    (hnoc : cookies.find? (fun c => c.1 == "JSESSIONID") = none)
    (hnotok : optTruthy st.session_id = false) :
    (authenticate st (.resp 200 text cookies)).1 =
      [("status", .str "error"),
       ("message", .str "Authentication failed - no session ID received"),
       ("response", .str text)] ∧
    (authenticate st (.resp 200 text cookies)).2.session_id = st.session_id := by
  simp only [authenticate, hnoc]
  constructor
  · simp [hnotok]
  · simp [hnotok]

/-- Witness for the amended claim C4 at a concrete input. -/
theorem auth_missing_cookie_reports_failure_witness :
    (List.find? (fun c => c.1 == "JSESSIONID") ([] : List (String × String)) = none) ∧
    optTruthy stNoTok.session_id = false ∧
    ((authenticate stNoTok (.resp 200 "welcome" [])).1 =
      [("status", .str "error"),
       ("message", .str "Authentication failed - no session ID received"),
       ("response", .str "welcome")] ∧
    (authenticate stNoTok (.resp 200 "welcome" [])).2.session_id = stNoTok.session_id) :=
  ⟨rfl, rfl, auth_missing_cookie_reports_failure stNoTok "welcome" [] rfl rfl⟩

/-!
Claim C8.
-/

theorem healthDeviceStep_obj (st : HealthSummary) (kvs : List (String × Json)) :
    healthDeviceStep st (Json.obj kvs) = Except.ok
      (if reachableP (Json.obj kvs) then
        { st with
          devices_up := st.devices_up + 1,
          device_details := st.device_details ++ [healthInfoOf (Json.obj kvs)] }
      else
        { st with
          devices_down := st.devices_down + 1,
          device_details := st.device_details ++ [healthInfoOf (Json.obj kvs)] }) := by
  by_cases hr : reachableP (Json.obj kvs) = true
  · have hr2 : jsonEqStr (lookupD kvs "reachability" Json.null) "reachable" = true := by
      simpa [reachableP, dgetD] using hr
    simp only [healthDeviceStep, pyGet, ok_bind, hr2, hr, if_true, pure_eq_ok]
    rfl
  · have hr2 : jsonEqStr (lookupD kvs "reachability" Json.null) "reachable" = false := by
      simpa [reachableP, dgetD] using eq_false_of_ne_true hr
    simp only [healthDeviceStep, pyGet, ok_bind, hr2, eq_false_of_ne_true hr,
      Bool.false_eq_true, if_false, pure_eq_ok]
    rfl

theorem healthFold (ds : List Json) (hwf : ds.all isObj = true) (st : HealthSummary) :
    ds.foldlM healthDeviceStep st = Except.ok
      { st with
        devices_up := st.devices_up + (ds.countP reachableP : ℤ),
        devices_down := st.devices_down + ((ds.length : ℤ) - (ds.countP reachableP : ℤ)),
        device_details := st.device_details ++ ds.map healthInfoOf } := by
  induction ds generalizing st with
  | nil =>
      simp only [List.foldlM_nil, List.countP_nil, Nat.cast_zero, add_zero,
        List.length_nil, List.map_nil, List.append_nil, pure_eq_ok, sub_self]
  | cons d rest ih =>
      rw [List.all_cons, Bool.and_eq_true] at hwf
      obtain ⟨hd, hrest⟩ := hwf
      match d with
      | .obj kvs =>
          rw [List.foldlM_cons, healthDeviceStep_obj, ok_bind]
          by_cases hr : reachableP (Json.obj kvs) = true
          · rw [if_pos hr, ih hrest]
            congr 1
            simp only [HealthSummary.mk.injEq, List.countP_cons, hr, if_true,
              List.length_cons, List.map_cons, List.append_assoc, List.singleton_append]
            repeat' apply And.intro
            all_goals first | trivial | omega
          · rw [if_neg hr, ih hrest]
            congr 1
            simp only [HealthSummary.mk.injEq, List.countP_cons,
              eq_false_of_ne_true hr, Bool.false_eq_true, if_false,
              List.length_cons, List.map_cons, List.append_assoc, List.singleton_append]
            repeat' apply And.intro
            all_goals first | trivial | omega

/-- Claim C8: the health summary counts a device as up exactly when its
reachability is "reachable" and as down otherwise, buckets overall health
by the up-percentage (at least 95 excellent, at least 80 good, at least 60
fair, otherwise poor); with 9 reachable devices out of 10 the result is
"good", and with 0 devices overall health remains "unknown". -/
theorem health_summary_counts_and_buckets (ds : List Json) (hwf : ds.all isObj = true) :
    (∃ s, get_device_health_summary (mkDevSnapshot ds) = Except.ok s ∧
      s.total_devices = (ds.length : ℤ) ∧
      s.devices_up = (ds.countP reachableP : ℤ) ∧
      s.devices_down = (ds.length : ℤ) - (ds.countP reachableP : ℤ) ∧
      s.overall_health = (if ds.length = 0 then "unknown"
        else overallHealthOf (ds.countP reachableP : ℤ) (ds.length : ℤ))) ∧
    (∃ s10, get_device_health_summary (mkDevSnapshot devNineOfTen) = Except.ok s10 ∧
      s10.devices_up = 9 ∧ s10.total_devices = 10 ∧ s10.overall_health = "good") ∧
    (∃ s0, get_device_health_summary (mkDevSnapshot []) = Except.ok s0 ∧
      s0.total_devices = 0 ∧ s0.overall_health = "unknown") := by
  have general : ∀ (l : List Json), l.all isObj = true →
      ∃ s, get_device_health_summary (mkDevSnapshot l) = Except.ok s ∧
        s.total_devices = (l.length : ℤ) ∧
        s.devices_up = (l.countP reachableP : ℤ) ∧
        s.devices_down = (l.length : ℤ) - (l.countP reachableP : ℤ) ∧
        s.overall_health = (if l.length = 0 then "unknown"
          else overallHealthOf (l.countP reachableP : ℤ) (l.length : ℤ)) := by
    intro l hl
    simp only [get_device_health_summary, mkDevSnapshot, ok_bind]
    rw [healthFold l hl]
    simp only [ok_bind, pure_eq_ok, hsFinalize, hsInit, zero_add]
    by_cases hn : l.length = 0
    · have : ¬ ((l.length : ℤ) > 0) := by omega
      rw [if_neg this]
      exact ⟨_, rfl, rfl, rfl, rfl, by rw [if_pos hn]⟩
    · have : (l.length : ℤ) > 0 := by omega
      rw [if_pos this]
      exact ⟨_, rfl, rfl, rfl, rfl, by rw [if_neg hn]⟩
  refine ⟨general ds hwf, ?_, ?_⟩
  · obtain ⟨s10, hs, htot, hup, hdown, hh⟩ := general devNineOfTen rfl
    have hcount : devNineOfTen.countP reachableP = 9 := rfl
    have hlen : devNineOfTen.length = 10 := rfl
    refine ⟨s10, hs, ?_, ?_, ?_⟩
    · rw [hup, hcount]; decide
    · rw [htot, hlen]; decide
    · rw [hh, hcount, hlen, if_neg (by decide)]
      rw [overallHealthOf]
      norm_num
  · obtain ⟨s0, hs, htot, hup, hdown, hh⟩ := general [] rfl
    exact ⟨s0, hs, by simpa using htot, by simpa using hh⟩

/-- Witness for claim C8 at the concrete ten-device list. -/
theorem health_summary_counts_and_buckets_witness :
    devNineOfTen.all isObj = true ∧
    (∃ s10, get_device_health_summary (mkDevSnapshot devNineOfTen) = Except.ok s10 ∧
      s10.devices_up = 9 ∧ s10.total_devices = 10 ∧ s10.overall_health = "good") :=
  ⟨rfl, (health_summary_counts_and_buckets devNineOfTen rfl).2.1⟩

/-!
Claim C6.
-/

theorem alertDeviceStep_critical (st : AlertSet) (kvs : List (String × Json))
    (hst : (match lookupD kvs "status" (Json.str "") with
      | .str _ => true
      | _ => false) = true) :
    alertDeviceStep "critical" st (Json.obj kvs) = Except.ok
      (if unreachableP (Json.obj kvs) then
        { st with
          alerts := st.alerts ++ [critAlertOf (Json.obj kvs)],
          critical_alerts := st.critical_alerts + 1 }
      else st) := by
  match hs : lookupD kvs "status" (Json.str "") with
  | .str sv =>
      have hfilter : ∀ (low : String),
          (("critical" == "all" || ("critical" ==
            (if strContainsSub low "warning" then "warning" else "info"))) : Bool) = false := by
        intro low
        by_cases hw : strContainsSub low "warning" = true
        · rw [hw]; rfl
        · rw [eq_false_of_ne_true hw]; rfl
      by_cases hu : unreachableP (Json.obj kvs) = true
      · have hu2 : jsonEqStr (lookupD kvs "reachability" Json.null) "unreachable" = true := by
          simpa [unreachableP, dgetD] using hu
        simp only [alertDeviceStep, pyGet, ok_bind, hu2, hu, if_true, pure_eq_ok, hs]
        by_cases hn : jsonEqStr (lookupD kvs "status" Json.null) "normal" = true
        · simp only [hn, Bool.not_true, Bool.false_eq_true, if_false, pure_eq_ok]
          rfl
        · simp only [eq_false_of_ne_true hn, Bool.not_false, if_true, ok_bind, hfilter,
            Bool.false_eq_true, if_false, pure_eq_ok]
          rfl
      · have hu2 : jsonEqStr (lookupD kvs "reachability" Json.null) "unreachable" = false := by
          simpa [unreachableP, dgetD] using eq_false_of_ne_true hu
        simp only [alertDeviceStep, pyGet, ok_bind, hu2, eq_false_of_ne_true hu,
          Bool.false_eq_true, if_false, pure_eq_ok, hs]
        by_cases hn : jsonEqStr (lookupD kvs "status" Json.null) "normal" = true
        · simp only [hn, Bool.not_true, Bool.false_eq_true, if_false, pure_eq_ok]
        · simp only [eq_false_of_ne_true hn, Bool.not_false, if_true, ok_bind, hfilter,
            Bool.false_eq_true, if_false, pure_eq_ok]
  | .null => simp [hs] at hst
  | .bool b => simp [hs] at hst
  | .int n => simp [hs] at hst
  | .rat q => simp [hs] at hst
  | .arr xs => simp [hs] at hst
  | .obj o => simp [hs] at hst

theorem alertFold_critical (ds : List Json) (hwf : ds.all alertWF = true) (st : AlertSet) :
    ds.foldlM (alertDeviceStep "critical") st = Except.ok
      { st with
        critical_alerts := st.critical_alerts + (ds.countP unreachableP : ℤ),
        alerts := st.alerts ++ (ds.filter unreachableP).map critAlertOf } := by
  induction ds generalizing st with
  | nil =>
      simp only [List.foldlM_nil, List.countP_nil, Nat.cast_zero, add_zero,
        List.filter_nil, List.map_nil, List.append_nil, pure_eq_ok]
  | cons d rest ih =>
      rw [List.all_cons, Bool.and_eq_true] at hwf
      obtain ⟨hd, hrest⟩ := hwf
      rw [alertWF, Bool.and_eq_true] at hd
      obtain ⟨hobj, hst⟩ := hd
      match d with
      | .obj kvs =>
          have hst2 : (match lookupD kvs "status" (Json.str "") with
              | .str _ => true
              | _ => false) = true := by simpa [dgetD] using hst
          rw [List.foldlM_cons, alertDeviceStep_critical st kvs hst2, ok_bind]
          by_cases hu : unreachableP (Json.obj kvs) = true
          · rw [if_pos hu, ih hrest]
            congr 1
            simp only [AlertSet.mk.injEq, List.countP_cons, hu, if_true,
              List.filter_cons, List.map_cons, List.append_assoc,
              List.singleton_append]
            repeat' apply And.intro
            all_goals first | trivial | omega
          · rw [if_neg hu, ih hrest]
            congr 1
            simp only [AlertSet.mk.injEq, List.countP_cons, eq_false_of_ne_true hu, hu,
              Bool.false_eq_true, if_false, List.filter_cons, List.map_cons,
              List.append_assoc, List.singleton_append]
            repeat' apply And.intro
            all_goals first | trivial | omega

/-- Claim C6: with severity filter "critical", the alerts list holds exactly
the unreachable-device alerts (each with severity "critical" and message
"Device is unreachable"); `critical_alerts` equals the length of the alerts
list, and the warning/info tallies — computed from the filtered set only —
are zero, as is every count beyond the filtered alerts. -/
theorem device_alerts_critical_filter (ds : List Json) (hwf : ds.all alertWF = true) :
    ∃ a, get_device_alerts "critical" (mkDevSnapshot ds) = Except.ok a ∧
      a.alerts = (ds.filter unreachableP).map critAlertOf ∧
      (∀ al ∈ a.alerts, al.severity = "critical" ∧ al.message = "Device is unreachable") ∧
      a.critical_alerts = (a.alerts.length : ℤ) ∧
      a.warning_alerts = 0 ∧
      a.info_alerts = 0 ∧
      a.total_alerts = (a.alerts.length : ℤ) := by
  simp only [get_device_alerts, mkDevSnapshot, ok_bind]
  rw [alertFold_critical ds hwf]
  simp only [ok_bind, pure_eq_ok]
  refine ⟨_, rfl, ?_, ?_, ?_, rfl, rfl, ?_⟩
  · simp
  · intro al hal
    simp only [List.nil_append] at hal
    obtain ⟨d, _, heq⟩ := List.mem_map.mp hal
    rw [← heq]
    exact ⟨rfl, rfl⟩
  · simp [List.countP_eq_length_filter]
  · simp

/-- Witness for claim C6 at a concrete two-device list. -/
theorem device_alerts_critical_filter_witness :
    alertDevs.all alertWF = true ∧
    (∃ a, get_device_alerts "critical" (mkDevSnapshot alertDevs) = Except.ok a ∧
      a.alerts = (alertDevs.filter unreachableP).map critAlertOf ∧
      (∀ al ∈ a.alerts, al.severity = "critical" ∧ al.message = "Device is unreachable") ∧
      a.critical_alerts = (a.alerts.length : ℤ) ∧
      a.warning_alerts = 0 ∧
      a.info_alerts = 0 ∧
      a.total_alerts = (a.alerts.length : ℤ)) :=
  ⟨rfl, device_alerts_critical_filter alertDevs rfl⟩

/-!
Claim C7.
-/

/-- Claim C7 counterexample: a single device with a truthy deviceId whose
BFD fetch raises. The aggregation completes, but the failing device IS
counted in `total_devices_checked` (the increment happens before the
try block), so it is not true that it is "not counted in any of the
summary's counters". -/
theorem bfd_failing_device_still_counted :
    check_bfd_session_health false bfdFailSnap = Except.ok
      { total_devices_checked := 1, devices_with_bfd := 0, total_bfd_sessions := 0,
        active_sessions := 0, inactive_sessions := 0, session_details := none } := by
  rfl

theorem bfdDeviceStep_ok (include_details : Bool) (snap : Snapshot) (st : BfdSummary)
    (dd : Json) (h : isObj dd = true) :
    ∃ s2, bfdDeviceStep include_details snap st dd = Except.ok s2 := by
  match dd with
  | .obj kvs =>
      simp only [bfdDeviceStep, pyGet, ok_bind]
      repeat' split
      all_goals exact ⟨_, rfl⟩

theorem bfdFold_ok (include_details : Bool) (snap : Snapshot) (ds : List Json)
    (hwf : ds.all isObj = true) (st : BfdSummary) :
    ∃ s, ds.foldlM (bfdDeviceStep include_details snap) st = Except.ok s := by
  induction ds generalizing st with
  | nil => exact ⟨st, rfl⟩
  | cons d rest ih =>
      rw [List.all_cons, Bool.and_eq_true] at hwf
      obtain ⟨hd, hrest⟩ := hwf
      obtain ⟨s1, hs1⟩ := bfdDeviceStep_ok include_details snap st d hd
      obtain ⟨s, hs⟩ := ih hrest s1
      exact ⟨s, by rw [List.foldlM_cons, hs1, ok_bind, hs]⟩

theorem bfdDeviceStep_fail (include_details : Bool) (snap : Snapshot) (st : BfdSummary)
    (kvs : List (String × Json))
    (hid : jsonTruthy (lookupD kvs "deviceId" Json.null) = true)
    (m : String) (hfail : snap.bfd (lookupD kvs "deviceId" Json.null) = Except.error m) :
    bfdDeviceStep include_details snap st (Json.obj kvs) = Except.ok (bumpChecked st) := by
  simp only [bfdDeviceStep, pyGet, ok_bind, hid, if_true, hfail]
  rfl

/-- Claim C7 (amended): a failing per-device BFD fetch is absorbed — the
aggregation completes and returns a summary — and the failing device is
counted in no counter other than `total_devices_checked`, which it does
increment (the increment precedes the fetch attempt). Stated as: appending
a failing device to the device list adds one to `total_devices_checked`
and leaves every other field of the summary unchanged. -/
theorem bfd_failure_absorbed (include_details : Bool) (ds : List Json) (d : Json)
    (bfd : Json → Except String Json)
    (hwf : ds.all isObj = true) (hd : isObj d = true)
    (hid : jsonTruthy (dgetD d "deviceId" Json.null) = true)
    (m : String) (hfail : bfd (dgetD d "deviceId" Json.null) = Except.error m) :
    ∃ s s2, check_bfd_session_health include_details (mkBfdSnapshot ds bfd) = Except.ok s ∧
      check_bfd_session_health include_details (mkBfdSnapshot (ds ++ [d]) bfd) = Except.ok s2 ∧
      s2.total_devices_checked = s.total_devices_checked + 1 ∧
      s2.devices_with_bfd = s.devices_with_bfd ∧
      s2.total_bfd_sessions = s.total_bfd_sessions ∧
      s2.active_sessions = s.active_sessions ∧
      s2.inactive_sessions = s.inactive_sessions ∧
      s2.session_details = s.session_details := by
  match d with
  | .obj kvs =>
      have hid2 : jsonTruthy (lookupD kvs "deviceId" Json.null) = true := by
        simpa [dgetD] using hid
      have hfail2 : (mkBfdSnapshot (ds ++ [Json.obj kvs]) bfd).bfd
          (lookupD kvs "deviceId" Json.null) = Except.error m := by
        simpa [mkBfdSnapshot, dgetD] using hfail
      obtain ⟨s, hs⟩ := bfdFold_ok include_details (mkBfdSnapshot ds bfd) ds hwf
        (bfdInit include_details)
      have hstep : bfdDeviceStep include_details (mkBfdSnapshot (ds ++ [Json.obj kvs]) bfd) =
          bfdDeviceStep include_details (mkBfdSnapshot ds bfd) := rfl
      have hdev : (mkBfdSnapshot ds bfd).devices = Except.ok (Json.arr ds) := rfl
      have hdev2 : (mkBfdSnapshot (ds ++ [Json.obj kvs]) bfd).devices =
          Except.ok (Json.arr (ds ++ [Json.obj kvs])) := rfl
      refine ⟨s, bumpChecked s, ?_, ?_, rfl, rfl, rfl, rfl, rfl, rfl⟩
      · simp only [check_bfd_session_health, hdev, ok_bind]
        rw [hs]
      · simp only [check_bfd_session_health, hdev2, ok_bind]
        rw [List.foldlM_append, hstep, hs, ok_bind, List.foldlM_cons,
          bfdDeviceStep_fail include_details (mkBfdSnapshot ds bfd) s kvs hid2 m
            (by simpa [mkBfdSnapshot] using hfail), ok_bind, List.foldlM_nil]
        rfl

/-- Witness for the amended claim C7 at a concrete input. -/
theorem bfd_failure_absorbed_witness :
    ([] : List Json).all isObj = true ∧
    isObj (Json.obj [("deviceId", Json.str "A")]) = true ∧
    jsonTruthy (dgetD (Json.obj [("deviceId", Json.str "A")]) "deviceId" Json.null) = true ∧
    (fun _ => (Except.error "boom" : Except String Json))
      (dgetD (Json.obj [("deviceId", Json.str "A")]) "deviceId" Json.null) =
        Except.error "boom" ∧
    (∃ s s2, check_bfd_session_health false
        (mkBfdSnapshot [] (fun _ => Except.error "boom")) = Except.ok s ∧
      check_bfd_session_health false
        (mkBfdSnapshot ([] ++ [Json.obj [("deviceId", Json.str "A")]])
          (fun _ => Except.error "boom")) = Except.ok s2 ∧
      s2.total_devices_checked = s.total_devices_checked + 1 ∧
      s2.devices_with_bfd = s.devices_with_bfd ∧
      s2.total_bfd_sessions = s.total_bfd_sessions ∧
      s2.active_sessions = s.active_sessions ∧
      s2.inactive_sessions = s.inactive_sessions ∧
      s2.session_details = s.session_details) :=
  ⟨rfl, rfl, rfl, rfl,
    bfd_failure_absorbed false [] (Json.obj [("deviceId", Json.str "A")])
      (fun _ => Except.error "boom") rfl rfl rfl "boom" rfl⟩

/-!
Claim C9.
-/

theorem bind_eq_ok {ε α β : Type} {x : Except ε α} {f : α → Except ε β} {b : β} :
    x >>= f = Except.ok b ↔ ∃ a, x = Except.ok a ∧ f a = Except.ok b := by
  cases x with
  | error e => simp [error_bind]
  | ok a => simp [ok_bind]

theorem trafficEntryOf_total (x : Json) (e : TrafficEntry)
    (h : trafficEntryOf x = Except.ok e) : e.total_bytes = e.rx_bytes + e.tx_bytes := by
  cases x with
  | obj kvs =>
      simp only [trafficEntryOf, pyGet, ok_bind, bind_eq_ok, pure_eq_ok,
        Except.ok.injEq] at h
      obtain ⟨rx, hrx, tx, htx, rxp, hrxp, txp, htxp, rxe, hrxe, txe, htxe, he⟩ := h
      subst he
      rfl
  | null => simp [trafficEntryOf, pyGet, error_bind] at h
  | bool b => simp [trafficEntryOf, pyGet, error_bind] at h
  | int n => simp [trafficEntryOf, pyGet, error_bind] at h
  | rat q => simp [trafficEntryOf, pyGet, error_bind] at h
  | str s => simp [trafficEntryOf, pyGet, error_bind] at h
  | arr xs => simp [trafficEntryOf, pyGet, error_bind] at h

theorem mapM_trafficEntryOf_mem {xs : List Json} {es : List TrafficEntry}
    (h : xs.mapM trafficEntryOf = Except.ok es) :
    ∀ e ∈ es, ∃ x ∈ xs, trafficEntryOf x = Except.ok e := by
  induction xs generalizing es with
  | nil =>
      simp only [List.mapM_nil, pure_eq_ok, Except.ok.injEq] at h
      subst h
      intro e he
      cases he
  | cons x rest ih =>
      rw [List.mapM_cons] at h
      simp only [bind_eq_ok, pure_eq_ok, Except.ok.injEq] at h
      obtain ⟨b, hb, bs, hbs, hes⟩ := h
      subst hes
      intro e he
      rcases List.mem_cons.mp he with he | he
      · exact ⟨x, List.mem_cons_self x rest, by rw [he]; exact hb⟩
      · obtain ⟨y, hy, hye⟩ := ih hbs e he
        exact ⟨y, List.mem_cons_of_mem x hy, hye⟩

/-- Claim C9: for a valid metric and a non-negative limit, the operation
computes `total_bytes` as rx plus tx for every entry, stable-sorts the
entries in descending metric order (sortedness, permutation, and
stability — equal-metric entries keep their input order — are stated
separately) and truncates to the first `limit` entries; on the concrete
total_bytes list [100, 50, 900, 10, 500, 200] with limit 5 it returns
[900, 500, 200, 100, 50], and with limit 10 the whole sorted list. -/
theorem top_interfaces_sorted_truncated (xs : List Json) (entries : List TrafficEntry)
    (limit : ℤ) (metric : String)
    (hm : validMetric metric = true) (hl : 0 ≤ limit)
    (hmap : xs.mapM trafficEntryOf = Except.ok entries) :
    (∃ r, get_top_interfaces_by_traffic limit metric (mkIntfSnapshot xs) = Except.ok r ∧
      r.top_interfaces =
        (entries.insertionSort
          (fun a b => metricKey metric b ≤ metricKey metric a)).take limit.toNat ∧
      (entries.insertionSort
        (fun a b => metricKey metric b ≤ metricKey metric a)).Perm entries ∧
      List.Pairwise (fun a b => metricKey metric b ≤ metricKey metric a)
        (entries.insertionSort (fun a b => metricKey metric b ≤ metricKey metric a)) ∧
      (∀ v : ℤ,
        (entries.insertionSort
          (fun a b => metricKey metric b ≤ metricKey metric a)).filter
            (fun e => metricKey metric e == v) =
          entries.filter (fun e => metricKey metric e == v)) ∧
      (∀ e ∈ entries, e.total_bytes = e.rx_bytes + e.tx_bytes) ∧
      r.total_interfaces = (xs.length : ℤ) ∧ r.metric = metric ∧ r.limit = limit) ∧
    (∃ r5, get_top_interfaces_by_traffic 5 "total_bytes" (mkIntfSnapshot trafficIfaces) =
        Except.ok r5 ∧
      r5.top_interfaces.map (fun e => e.total_bytes) = [900, 500, 200, 100, 50]) ∧
    (∃ r10, get_top_interfaces_by_traffic 10 "total_bytes" (mkIntfSnapshot trafficIfaces) =
        Except.ok r10 ∧
      r10.top_interfaces.map (fun e => e.total_bytes) = [900, 500, 200, 100, 50, 10] ∧
      r10.top_interfaces.length = trafficIfaces.length) := by
  refine ⟨?_, ⟨_, rfl, by decide⟩, ⟨_, rfl, by decide, by decide⟩⟩
  have hsnap : (mkIntfSnapshot xs).interfaces = Except.ok (Json.arr xs) := rfl
  letI htotal : IsTotal TrafficEntry
      (fun a b => metricKey metric b ≤ metricKey metric a) :=
    ⟨fun a b => (le_total (metricKey metric b) (metricKey metric a)).symm.symm.imp
      (fun h => h) (fun h => h)⟩
  letI htrans : IsTrans TrafficEntry
      (fun a b => metricKey metric b ≤ metricKey metric a) :=
    ⟨fun a b c hab hbc => le_trans hbc hab⟩
  have hres : get_top_interfaces_by_traffic limit metric (mkIntfSnapshot xs) = Except.ok
      { metric := metric, limit := limit, total_interfaces := (xs.length : ℤ),
        top_interfaces := pySliceTo (entries.insertionSort
          (fun a b => metricKey metric b ≤ metricKey metric a)) limit } := by
    simp only [get_top_interfaces_by_traffic, hsnap, ok_bind, hmap, hm, if_true,
      pure_eq_ok]
  refine ⟨_, hres, ?_, List.perm_insertionSort _ entries,
    List.sorted_insertionSort _ entries, ?_, ?_, rfl, rfl, rfl⟩
  · show pySliceTo _ limit = _
    rw [pySliceTo, if_pos hl]
  · intro v
    have hkey : ∀ e ∈ entries.filter (fun e => metricKey metric e == v),
        metricKey metric e = v := by
      intro e he
      exact beq_iff_eq.mp (List.mem_filter.mp he).2
    have hpair : (entries.filter (fun e => metricKey metric e == v)).Pairwise
        (fun a b => metricKey metric b ≤ metricKey metric a) := by
      refine List.pairwise_of_forall_mem_list ?_
      intro a ha b hb
      rw [hkey a ha, hkey b hb]
    have hsubl : (entries.filter (fun e => metricKey metric e == v)).Sublist
        (entries.insertionSort (fun a b => metricKey metric b ≤ metricKey metric a)) :=
      List.sublist_insertionSort hpair (List.filter_sublist entries)
    have hsub2 : (entries.filter (fun e => metricKey metric e == v)).Sublist
        ((entries.insertionSort
          (fun a b => metricKey metric b ≤ metricKey metric a)).filter
            (fun e => metricKey metric e == v)) := by
      have h2 := List.Sublist.filter (fun e => metricKey metric e == v) hsubl
      simpa [List.filter_filter, Bool.and_self] using h2
    have hlen : ((entries.insertionSort
        (fun a b => metricKey metric b ≤ metricKey metric a)).filter
          (fun e => metricKey metric e == v)).length =
        (entries.filter (fun e => metricKey metric e == v)).length := by
      rw [← List.countP_eq_length_filter, ← List.countP_eq_length_filter]
      exact (List.perm_insertionSort _ entries).countP_eq _
    exact (hsub2.eq_of_length hlen.symm).symm
  · intro e he
    obtain ⟨x, _, hx⟩ := mapM_trafficEntryOf_mem hmap e he
    exact trafficEntryOf_total x e hx

/-- Witness for claim C9: the concrete six-interface list with limit 5 and
metric total_bytes. -/
theorem top_interfaces_sorted_truncated_witness :
    validMetric "total_bytes" = true ∧ (0 : ℤ) ≤ 5 ∧
    (∃ es, trafficIfaces.mapM trafficEntryOf = Except.ok es) ∧
    (∃ r5, get_top_interfaces_by_traffic 5 "total_bytes" (mkIntfSnapshot trafficIfaces) =
        Except.ok r5 ∧
      r5.top_interfaces.map (fun e => e.total_bytes) = [900, 500, 200, 100, 50]) := by
  refine ⟨rfl, by decide, ⟨_, rfl⟩, ?_⟩
  exact (top_interfaces_sorted_truncated trafficIfaces _ 5 "total_bytes" rfl (by decide)
    rfl).2.1

/-!
Claim C10.
-/

theorem pymod_bounds (x : ℚ) : 0 ≤ pymod x 100 ∧ pymod x 100 < 100 := by
  have h1 : ((⌊x / 100⌋ : ℚ)) ≤ x / 100 := Int.floor_le (x / 100)
  have h2 : x / 100 < (⌊x / 100⌋ : ℚ) + 1 := Int.lt_floor_add_one (x / 100)
  rw [le_div_iff (by norm_num : (0:ℚ) < 100)] at h1
  rw [div_lt_iff (by norm_num : (0:ℚ) < 100)] at h2
  rw [pymod]
  constructor <;> linarith

theorem mockUtilOf_bounds (rx tx : ℤ) :
    0 ≤ mockUtilOf rx tx ∧ mockUtilOf rx tx < 100 ∧
    mockUtilOf rx tx = pymod (((rx + tx : ℤ) : ℚ) / 1000000) 100 := by
  obtain ⟨h0, h100⟩ := pymod_bounds (((rx + tx : ℤ) : ℚ) / 1000000)
  have hmin : mockUtilOf rx tx = pymod (((rx + tx : ℤ) : ℚ) / 1000000) 100 := by
    rw [mockUtilOf, min_eq_left (le_of_lt h100)]
  exact ⟨by rw [hmin]; exact h0, by rw [hmin]; exact h100, hmin⟩

theorem roundHalfEven_bounds (x : ℚ) :
    ⌊x⌋ ≤ roundHalfEven x ∧ roundHalfEven x ≤ ⌊x⌋ + 1 := by
  rw [roundHalfEven]
  split_ifs <;> omega

theorem round2_nonneg (q : ℚ) (h : 0 ≤ q) : 0 ≤ round2 q := by
  have hf : (0 : ℤ) ≤ ⌊q * 100⌋ := Int.floor_nonneg.mpr (by positivity)
  have hb := (roundHalfEven_bounds (q * 100)).1
  have hz : (0 : ℤ) ≤ roundHalfEven (q * 100) := le_trans hf hb
  rw [round2]
  have hc : (0 : ℚ) ≤ (roundHalfEven (q * 100) : ℚ) := by exact_mod_cast hz
  exact div_nonneg hc (by norm_num)

theorem round2_le_100 (q : ℚ) (h : q < 100) : round2 q ≤ 100 := by
  have hmul : q * 100 < 10000 := by linarith
  have hf : ⌊q * 100⌋ < 10000 := Int.floor_lt.mpr (by exact_mod_cast hmul)
  have hb := (roundHalfEven_bounds (q * 100)).2
  have hz : roundHalfEven (q * 100) ≤ 10000 := by omega
  rw [round2, div_le_iff (by norm_num : (0:ℚ) < 100)]
  calc ((roundHalfEven (q * 100) : ℤ) : ℚ) ≤ 10000 := by exact_mod_cast hz
    _ = 100 * 100 := by norm_num

theorem utilStep_char (threshold : ℚ) (st : UtilState) (i : Json) (rx tx : ℤ)
    (hobj : isObj i = true)
    (hrx : pyInt (dgetD i "rx_octets" (Json.int 0)) = Except.ok rx)
    (htx : pyInt (dgetD i "tx_octets" (Json.int 0)) = Except.ok tx) :
    ∃ st2, utilStep threshold st i = Except.ok st2 ∧
      st2.total_utilization = st.total_utilization + mockUtilOf rx tx := by
  match i with
  | .obj kvs =>
      have hrx2 : pyInt (lookupD kvs "rx_octets" (Json.int 0)) = Except.ok rx := by
        simpa [dgetD] using hrx
      have htx2 : pyInt (lookupD kvs "tx_octets" (Json.int 0)) = Except.ok tx := by
        simpa [dgetD] using htx
      simp only [utilStep, pyGet, ok_bind, hrx2, htx2]
      by_cases hth : mockUtilOf rx tx > threshold
      · rw [if_pos hth]
        exact ⟨_, rfl, rfl⟩
      · rw [if_neg hth]
        exact ⟨_, rfl, rfl⟩

theorem utilFold_bound (threshold : ℚ) (xs : List Json)
    (hwf : ∀ i ∈ xs, utilWF i) (st : UtilState) :
    ∃ st2, xs.foldlM (utilStep threshold) st = Except.ok st2 ∧
      st.total_utilization ≤ st2.total_utilization ∧
      st2.total_utilization ≤ st.total_utilization + 100 * (xs.length : ℚ) ∧
      (0 < xs.length →
        st2.total_utilization < st.total_utilization + 100 * (xs.length : ℚ)) := by
  induction xs generalizing st with
  | nil =>
      exact ⟨st, rfl, le_refl _, by simp, by simp⟩
  | cons i rest ih =>
      obtain ⟨hobj, rx, tx, hrx0, htx0, hrx, htx⟩ := hwf i (List.mem_cons_self i rest)
      obtain ⟨st1, hst1, htot1⟩ := utilStep_char threshold st i rx tx hobj hrx htx
      obtain ⟨st2, hst2, hlow, hup, hstrict⟩ :=
        ih (fun j hj => hwf j (List.mem_cons_of_mem i hj)) st1
      obtain ⟨hm0, hm100, _⟩ := mockUtilOf_bounds rx tx
      refine ⟨st2, by rw [List.foldlM_cons, hst1, ok_bind, hst2], ?_, ?_, ?_⟩
      · rw [htot1] at hlow
        linarith
      · rw [htot1] at hup
        have : ((i :: rest).length : ℚ) = (rest.length : ℚ) + 1 := by
          push_cast [List.length_cons]
          ring
        rw [this]
        linarith
      · intro _
        rw [htot1] at hup
        have : ((i :: rest).length : ℚ) = (rest.length : ℚ) + 1 := by
          push_cast [List.length_cons]
          ring
        rw [this]
        linarith

/-- Claim C10 counterexample: one interface with rx+tx = 99 999 000 bytes.
The unrounded mock utilization is 99.999 (inside the half-open interval),
but the reported average_utilization — rounded to two decimals — is
exactly 100, not strictly below 100; the reported per-interface
utilization_percent is likewise 100. -/
theorem utilization_average_reaches_100 :
    monitor_interface_utilization 80 (mkIntfSnapshot utilIface) = Except.ok
      { threshold_percent := 80, total_interfaces := 1,
        high_utilization_interfaces := 1,
        interfaces_over_threshold := [{
          device_id := Json.null,
          interface := Json.null,
          utilization_percent := 100,
          rx_bytes := 99999000,
          tx_bytes := 0,
          status := Json.null }],
        average_utilization := 100 } := by
  have hmock : mockUtilOf 99999000 0 = 99999 / 1000 := by
    have hfl : ⌊((99999000 + 0 : ℤ) : ℚ) / 1000000 / 100⌋ = 0 := by
      rw [Int.floor_eq_iff]
      norm_num
    rw [mockUtilOf, pymod, hfl]
    norm_num
  have hround : round2 (99999 / 1000) = 100 := by
    have h1 : ⌊(99999 : ℚ) / 1000 * 100⌋ = 9999 := by
      rw [Int.floor_eq_iff]
      norm_num
    rw [round2, roundHalfEven, h1]
    norm_num
  have hrx : pyInt (lookupD [("rx_octets", Json.int 99999000)] "rx_octets" (Json.int 0)) =
      Except.ok 99999000 := rfl
  have htx : pyInt (lookupD [("rx_octets", Json.int 99999000)] "tx_octets" (Json.int 0)) =
      Except.ok 0 := rfl
  have hstep : utilStep 80 ⟨0, 0, []⟩ (Json.obj [("rx_octets", Json.int 99999000)]) =
      Except.ok ⟨0 + 99999 / 1000, 0 + 1,
        [⟨Json.null, Json.null, round2 (99999 / 1000), 99999000, 0, Json.null⟩]⟩ := by
    simp only [utilStep, pyGet, ok_bind, hrx, htx, hmock]
    rw [if_pos (by norm_num : (99999 : ℚ) / 1000 > 80)]
    rfl
  have hfold : List.foldlM (utilStep 80) ⟨0, 0, []⟩
      [Json.obj [("rx_octets", Json.int 99999000)]] = Except.ok
        (⟨0 + 99999 / 1000, 0 + 1,
          [⟨Json.null, Json.null, round2 (99999 / 1000), 99999000, 0, Json.null⟩]⟩ :
          UtilState) := by
    rw [List.foldlM_cons, hstep, ok_bind, List.foldlM_nil]
    rfl
  have hsnap : (mkIntfSnapshot utilIface).interfaces =
      Except.ok (Json.arr [Json.obj [("rx_octets", Json.int 99999000)]]) := rfl
  simp only [monitor_interface_utilization, hsnap, ok_bind, hfold, pure_eq_ok]
  norm_num [hround, UtilizationReport.mk.injEq]

/-- Claim C10 (amended): for non-negative byte counts the unrounded mock
utilization lies in the half-open interval [0, 100) and the min-100 cap
never changes it; the reported average_utilization (rounded to two
decimals) lies in the closed interval [0, 100] — it can equal exactly 100,
as the counterexample shows — and is 0 when there are no interfaces. -/
theorem utilization_bounds (xs : List Json) (threshold : ℚ)
    (hwf : ∀ i ∈ xs, utilWF i) :
    (∀ rx tx : ℤ, 0 ≤ rx → 0 ≤ tx →
      0 ≤ mockUtilOf rx tx ∧ mockUtilOf rx tx < 100 ∧
      mockUtilOf rx tx = pymod (((rx + tx : ℤ) : ℚ) / 1000000) 100) ∧
    ∃ u, monitor_interface_utilization threshold (mkIntfSnapshot xs) = Except.ok u ∧
      0 ≤ u.average_utilization ∧ u.average_utilization ≤ 100 ∧
      (xs.length = 0 → u.average_utilization = 0) := by
  refine ⟨fun rx tx _ _ => mockUtilOf_bounds rx tx, ?_⟩
  have hsnap : (mkIntfSnapshot xs).interfaces = Except.ok (Json.arr xs) := rfl
  obtain ⟨st2, hfold, hlow, hup, hstrict⟩ := utilFold_bound threshold xs hwf ⟨0, 0, []⟩
  simp only [monitor_interface_utilization, hsnap, ok_bind, hfold, pure_eq_ok]
  by_cases hn : 0 < xs.length
  · rw [if_pos hn]
    refine ⟨_, rfl, ?_, ?_, ?_⟩
    · exact round2_nonneg _ (div_nonneg (by simpa using hlow)
        (by positivity))
    · have hnq : (0 : ℚ) < (xs.length : ℚ) := by exact_mod_cast hn
      refine round2_le_100 _ ?_
      rw [div_lt_iff hnq]
      have hs := hstrict hn
      simp only at hs
      linarith
    · intro h0
      omega
  · rw [if_neg hn]
    exact ⟨_, rfl, le_refl 0, by norm_num, fun _ => rfl⟩

/-- Witness for the amended claim C10 at the concrete single interface. -/
theorem utilization_bounds_witness :
    (∀ i ∈ utilIface, utilWF i) ∧
    ((∀ rx tx : ℤ, 0 ≤ rx → 0 ≤ tx →
      0 ≤ mockUtilOf rx tx ∧ mockUtilOf rx tx < 100 ∧
      mockUtilOf rx tx = pymod (((rx + tx : ℤ) : ℚ) / 1000000) 100) ∧
    ∃ u, monitor_interface_utilization 80 (mkIntfSnapshot utilIface) = Except.ok u ∧
      0 ≤ u.average_utilization ∧ u.average_utilization ≤ 100 ∧
      (utilIface.length = 0 → u.average_utilization = 0)) := by
  have hwf : ∀ i ∈ utilIface, utilWF i := by
    intro i hi
    rw [utilIface, List.mem_singleton] at hi
    subst hi
    exact ⟨rfl, 99999000, 0, by norm_num, le_refl 0, rfl, rfl⟩
  exact ⟨hwf, utilization_bounds utilIface 80 hwf⟩

/-!
Claim C5.
-/

/-- Claim C5 counterexample: NetworkReport embeds the call-time event-loop
timestamp in `report_timestamp`, so two calls over the same (empty)
snapshot at different times yield different result objects — strict
idempotence fails for NetworkReport. -/
theorem report_not_identical_across_calls :
    generate_network_report 0 true true true (mkDevSnapshot []) ≠
    generate_network_report 1 true true true (mkDevSnapshot []) := by
  intro h
  have hc := congrArg tsOf h
  rw [show tsOf (generate_network_report 0 true true true (mkDevSnapshot [])) = 0 from rfl,
      show tsOf (generate_network_report 1 true true true (mkDevSnapshot [])) = 1 from rfl]
    at hc
  exact absurd hc (by norm_num)

theorem fetchAfterAuth_preserves_config (st : Session) (nA : ℕ) (w : MRWorld) :
    (fetchAfterAuth st nA w).fin.base_url = st.base_url ∧
    (fetchAfterAuth st nA w).fin.auth_url = st.auth_url ∧
    (fetchAfterAuth st nA w).fin.username = st.username ∧
    (fetchAfterAuth st nA w).fin.password = st.password := by
  rw [fetchAfterAuth]
  match w.get 0 with
  | .exn m => exact ⟨rfl, rfl, rfl, rfl⟩
  | .resp s0 u0 t0 b0 =>
      dsimp only
      by_cases hexp : expiredSignal s0 u0 = true
      · rw [if_pos hexp]
        have hauth := authenticate_touches_only_token st (w.post nA)
        by_cases herr : hasKey (authenticate st (w.post nA)).1 "error" = true
        · rw [if_pos herr]
          exact hauth
        · rw [if_neg herr]
          match w.get 1 with
          | .exn m => exact hauth
          | .resp s1 u1 t1 b1 => exact hauth
      · rw [if_neg hexp]
        exact ⟨rfl, rfl, rfl, rfl⟩

/-- Claim C5 (amended): every aggregation operation is a pure function of
the upstream snapshot, so repeated calls over an unchanged snapshot agree
on everything except NetworkReport's `report_timestamp`, which records the
call time (reports agree after stripping the timestamp); and the request
pipeline mutates no Session field other than the token `session_id`. -/
theorem report_idempotent_up_to_timestamp :
    (∀ (now1 now2 : ℚ) (ii ib it : Bool) (snap : Snapshot),
      stripTimestamp (generate_network_report now1 ii ib it snap) =
      stripTimestamp (generate_network_report now2 ii ib it snap)) ∧
    (∀ (st : Session) (w : MRWorld),
      (make_request st w).fin.base_url = st.base_url ∧
      (make_request st w).fin.auth_url = st.auth_url ∧
      (make_request st w).fin.username = st.username ∧
      (make_request st w).fin.password = st.password) ∧
    (∀ (st : Session) (p : PostOutcome),
      (authenticate st p).2.base_url = st.base_url ∧
      (authenticate st p).2.auth_url = st.auth_url ∧
      (authenticate st p).2.username = st.username ∧
      (authenticate st p).2.password = st.password) := by
  refine ⟨?_, ?_, authenticate_touches_only_token⟩
  · intro now1 now2 ii ib it snap
    cases h : networkReportCore ii ib it snap with
    | ok r => simp [generate_network_report, stripTimestamp, h]
    | error m => simp [generate_network_report, stripTimestamp, h]
  · intro st w
    rw [make_request]
    by_cases htr : optTruthy st.session_id = true
    · rw [htr]
      simp only [Bool.not_true, Bool.false_eq_true, if_false]
      exact fetchAfterAuth_preserves_config st 0 w
    · rw [eq_false_of_ne_true htr]
      simp only [Bool.not_false, if_true]
      have hauth := authenticate_touches_only_token st (w.post 0)
      by_cases herr : hasKey (authenticate st (w.post 0)).1 "error" = true
      · rw [if_pos herr]
        exact hauth
      · rw [if_neg herr]
        have hfa := fetchAfterAuth_preserves_config (authenticate st (w.post 0)).2 1 w
        exact ⟨hfa.1.trans hauth.1, hfa.2.1.trans hauth.2.1,
          hfa.2.2.1.trans hauth.2.2.1, hfa.2.2.2.trans hauth.2.2.2⟩

end SDWAN
